import Mathlib

/-!
Verification of the GDL 90 codec (gdl90py): a shallow embedding of the
bit-level encoders/decoders, the CRC and framing layer, and the message
types the claims exercise.  Bytes are modelled as `Nat` values (< 256 by
construction), bit buffers as `List Bool` in MSB-first order (mirroring
`bitstring.BitArray`), Python `float` values as exact rationals (`PyRat`), Python `int` as `ℤ`,
`None`-able fields as `Option`, and raised exceptions as `Except GDLError`.
-/

set_option maxRecDepth 4000

/-- Error taxonomy of gdl90py.exceptions (plus `pythonCrash` standing for an
uncaught `IndexError` in `unescape`/`deconstruct` on malformed input, which is
not one of the library's tagged errors). -/
inductive GDLError where
  | MissingFlagBytes
  | InvalidCRC
  | UnknownMessageID
  | InvalidMessageID
  | DataTooLong
  | InvalidCallsign
  | UnexpectedNegative
  | BadIntegerSize
  | UplinkDataWrongSize
  | InvalidEnumValue
  | pythonCrash
  deriving DecidableEq, Repr

/-- `BitArray(uint=v, length=w)`: the `w`-bit big-endian (MSB-first) bit list
of `v % 2^w`. -/
def natToBits : Nat → Nat → List Bool
  | 0, _ => []
  | w + 1, v => natToBits w (v / 2) ++ [decide (v % 2 = 1)]

/-- `BitArray.uint`: interpret an MSB-first bit list as an unsigned integer. -/
def bitsToNat (bs : List Bool) : Nat :=
  bs.foldl (fun a b => 2 * a + (if b then 1 else 0)) 0

/-- `BitArray.int`: two's-complement signed reading of an MSB-first bit list. -/
def bitsToInt (bs : List Bool) : Int :=
  let u := bitsToNat bs
  if 2 ^ bs.length ≤ 2 * u then (u : Int) - 2 ^ bs.length else (u : Int)

/-- `BitArray(int=v, length=w)`: two's-complement encoding of `v` in `w` bits. -/
def intToBits (w : Nat) (v : Int) : List Bool :=
  natToBits w (v % ((2 : Int) ^ w)).toNat

/-- `BitArray.tobytes()` helper: pack bits MSB-first into bytes, the trailing
partial byte (if any) padded with zero bits, carrying the current partial
byte value `acc` and the number `k` of bits already in it. -/
def bitsToBytesAux : List Bool → Nat → Nat → List Nat
  | [], acc, k => if k = 0 then [] else [acc * 2 ^ (8 - k)]
  | b :: rest, acc, k =>
    let acc2 := 2 * acc + (if b then 1 else 0)
    if k = 7 then acc2 :: bitsToBytesAux rest 0 0
    else bitsToBytesAux rest acc2 (k + 1)

/-- `BitArray.tobytes()`: MSB-first packed bytes, zero-padded at the end. -/
def bitsToBytes (bs : List Bool) : List Nat :=
  bitsToBytesAux bs 0 0

/-- `BitArray(bytes)`: load bytes MSB-first into a bit list. -/
def bytesToBits (bytes : List Nat) : List Bool :=
  bytes.flatMap (natToBits 8)

/-- Reverse the bit order inside one byte (`gdl90py.utils.bitarray.lsb` on a
single byte). -/
def lsb_byte (b : Nat) : Nat :=
  bitsToNat (natToBits 8 b).reverse

/-- `gdl90py.utils.bitarray.lsb_bytes`: flip the bit order within each byte. -/
def lsb_bytes (data : List Nat) : List Nat :=
  data.map lsb_byte

/-- `gdl90py.utils.bitarray.pop_bits`: first `bits` elements and the rest. -/
def pop_bits (bitarray : List Bool) (bits : Nat) : List Bool × List Bool :=
  (bitarray.take bits, bitarray.drop bits)

/-- `BitArray.byteswap()`: reverse the byte order of a whole-byte bit list. -/
def byteswap (bs : List Bool) : List Bool :=
  bytesToBits (bitsToBytes bs).reverse

/-- One shift step of the CRC table construction in `crc_table`:
`crc = ((crc << 1) & 0xFFFF) ^ (0x1021 if crc & 0x8000 else 0)`. -/
def crcShift (crc : Nat) : Nat :=
  ((crc <<< 1) &&& 0xFFFF) ^^^ (if crc &&& 0x8000 ≠ 0 then 0x1021 else 0)

/-- Entry `i` of the CRC-16 table: eight `crcShift` steps applied to
`(i << 8) & 0xFFFF` (the loop body of `crc_table`). -/
def crcTableEntry (i : Nat) : Nat :=
  crcShift^[8] ((i <<< 8) &&& 0xFFFF)

/-- `gdl90py.utils.gdl90.crc_table()`: the 256-entry table. -/
def crc_table : List Nat :=
  (List.range 256).map crcTableEntry

/-- The per-byte update of `compute_crc`:
`crc = crc_table()[crc >> 8] ^ ((crc << 8) & 0xFFFF) ^ c`. -/
def crcStep (crc c : Nat) : Nat :=
  (crc_table.getD (crc >>> 8) 0) ^^^ ((crc <<< 8) &&& 0xFFFF) ^^^ c

/-- The 16-bit CRC accumulator value of `compute_crc` before byte emission. -/
def crcValue (data : List Nat) : Nat :=
  data.foldl crcStep 0

/-- `crc.to_bytes(length=2, byteorder="little")`. -/
def crcToBytesLE (crc : Nat) : List Nat :=
  [crc % 256, crc / 256 % 256]

/-- `gdl90py.utils.gdl90.compute_crc`: table-driven CRC, two bytes
little-endian. -/
def compute_crc (data : List Nat) : List Nat :=
  crcToBytesLE (crcValue data)

/-- `gdl90py.utils.gdl90.escape`: byte-stuff `0x7E`/`0x7D` as `0x7D, b^0x20`. -/
def escape : List Nat → List Nat
  | [] => []
  | b :: rest =>
    if b = 0x7E ∨ b = 0x7D then 0x7D :: (b ^^^ 0x20) :: escape rest
    else b :: escape rest

/-- Scanner for `gdl90py.utils.gdl90.unescape`; the flag records that the
previous byte was `0x7D` and the next byte must be XORed with `0x20`.  A
trailing lone `0x7D` makes the Python code crash with `IndexError`
(`data[escape_index + 1]`), modelled as `none`. -/
def unescapeAux : List Nat → Bool → Option (List Nat)
  | [], pending => if pending then none else some []
  | b :: rest, true => (unescapeAux rest false).map (fun t => (b ^^^ 0x20) :: t)
  | b :: rest, false =>
    if b = 0x7D then unescapeAux rest true
    else (unescapeAux rest false).map (fun t => b :: t)

/-- `gdl90py.utils.gdl90.unescape`. -/
def unescape (data : List Nat) : Option (List Nat) :=
  unescapeAux data false

/-- `gdl90py.utils.gdl90.build`: message ID bytes, body bytes, CRC,
escaping, flag bytes, and the optional per-byte bit reversal. -/
def build (message_ids : List Nat) (data : List Bool) (outgoing_lsb : Bool) :
    List Nat :=
  let message_id_data := message_ids ++ bitsToBytes data
  let message_id_data_crc := message_id_data ++ compute_crc message_id_data
  let escaped := escape message_id_data_crc
  let framed := 0x7E :: (escaped ++ [0x7E])
  if outgoing_lsb then lsb_bytes framed else framed

/-- `gdl90py.utils.gdl90.deconstruct`.  Note the flag check raises only when
BOTH the first and the last byte differ from `0x7E` (Python `and`). -/
def deconstruct (data : List Nat) (incoming_msb : Bool) :
    Except GDLError (List Nat × List Bool) :=
  if data.headD 0 ≠ 0x7E ∧ data.getLastD 0 ≠ 0x7E then
    Except.error GDLError.MissingFlagBytes
  else
    let message_without_flags := (data.drop 1).dropLast
    let message_without_flags :=
      if incoming_msb then message_without_flags
      else lsb_bytes message_without_flags
    match unescape message_without_flags with
    | none => Except.error GDLError.pythonCrash
    | some unescaped_message =>
      let received_crc := unescaped_message.drop (unescaped_message.length - 2)
      let message_id_data := unescaped_message.take (unescaped_message.length - 2)
      if compute_crc message_id_data ≠ received_crc then
        Except.error GDLError.InvalidCRC
      else
        match message_id_data with
        | [] => Except.error GDLError.pythonCrash
        | message_id :: rest =>
          if message_id = 0x65 then
            match rest with
            | [] => Except.error GDLError.pythonCrash
            | sub_id :: rest2 =>
              Except.ok ([message_id, sub_id], bytesToBits rest2)
          else
            Except.ok ([message_id], bytesToBits rest)

/-- Exact rational numbers standing for Python `float` values.  Mathlib's `PyRat`
normalises through `Nat.gcd`, whose well-founded recursion does not reduce
definitionally, so concrete codec runs could not be evaluated inside proofs;
`PyRat` keeps the same canonical num/den representation but normalises with a
fuelled, structurally recursive gcd. -/
structure PyRat where
  num : Int
  den : Nat
  deriving DecidableEq, Repr

/-- Fuelled Euclidean gcd; the fuel argument makes the recursion structural. -/
def pyGcdAux : Nat → Nat → Nat → Nat
  | 0, _, b => b
  | fuel + 1, a, b => if a = 0 then b else pyGcdAux fuel (b % a) a

/-- `Nat.gcd`, computed with fuel `a + 1` (Euclid's first argument strictly
decreases, so this fuel always suffices). -/
def pyGcd (a b : Nat) : Nat := pyGcdAux (a + 1) a b

/-- Build a `PyRat` in lowest terms. -/
def mkPyRat (n : Int) (d : Nat) : PyRat :=
  let g := pyGcd n.natAbs d
  if g = 0 then ⟨0, 0⟩ else ⟨n.tdiv (g : Int), d / g⟩

namespace PyRat

/-- Embed an integer. -/
def ofInt (n : Int) : PyRat := ⟨n, 1⟩

instance : IntCast PyRat := ⟨ofInt⟩

instance : NatCast PyRat := ⟨fun n => ⟨(n : Int), 1⟩⟩

instance (n : Nat) : OfNat PyRat n := ⟨⟨(n : Int), 1⟩⟩

/-- Negation. -/
def neg (a : PyRat) : PyRat := ⟨-a.num, a.den⟩

instance : Neg PyRat := ⟨neg⟩

/-- Addition. -/
def add (a b : PyRat) : PyRat :=
  mkPyRat (a.num * (b.den : Int) + b.num * (a.den : Int)) (a.den * b.den)

instance : Add PyRat := ⟨add⟩

/-- Multiplication. -/
def mul (a b : PyRat) : PyRat := mkPyRat (a.num * b.num) (a.den * b.den)

instance : Mul PyRat := ⟨mul⟩

/-- Division. -/
def div (a b : PyRat) : PyRat :=
  if b.num < 0 then mkPyRat (-(a.num * (b.den : Int))) (a.den * b.num.natAbs)
  else mkPyRat (a.num * (b.den : Int)) (a.den * b.num.natAbs)

instance : Div PyRat := ⟨div⟩

/-- Natural powers. -/
def pow (a : PyRat) : Nat → PyRat
  | 0 => ⟨1, 1⟩
  | n + 1 => mul (pow a n) a

instance : Pow PyRat Nat := ⟨pow⟩

/-- Order, by cross multiplication (denominators are non-negative). -/
def le (a b : PyRat) : Prop := a.num * (b.den : Int) ≤ b.num * (a.den : Int)

instance : LE PyRat := ⟨le⟩

/-- Strict order, by cross multiplication. -/
def lt (a b : PyRat) : Prop := a.num * (b.den : Int) < b.num * (a.den : Int)

instance : LT PyRat := ⟨lt⟩

instance (a b : PyRat) : Decidable (a ≤ b) :=
  inferInstanceAs (Decidable (a.num * (b.den : Int) ≤ b.num * (a.den : Int)))

instance (a b : PyRat) : Decidable (a < b) :=
  inferInstanceAs (Decidable (a.num * (b.den : Int) < b.num * (a.den : Int)))

end PyRat

/-- Python `int(q)` on an exact rational: truncation toward zero. -/
def ratTrunc (q : PyRat) : Int :=
  if q < 0 then -(((-q.num).toNat / q.den : Nat) : Int)
  else ((q.num.toNat / q.den : Nat) : Int)

/-- Python `str.strip` / `str.rstrip` whitespace set, on ASCII codes. -/
def isPySpace (b : Nat) : Bool := b = 32 || (9 ≤ b && b ≤ 13)

/-- Python `str.strip` on a list of ASCII codes. -/
def pyStrip (s : List Nat) : List Nat :=
  ((s.dropWhile isPySpace).reverse.dropWhile isPySpace).reverse

/-- Python `str.rstrip` on a list of ASCII codes. -/
def pyRstrip (s : List Nat) : List Nat :=
  (s.reverse.dropWhile isPySpace).reverse

/-- Python `str.upper` on one ASCII code. -/
def pyUpperByte (b : Nat) : Nat := if 97 ≤ b ∧ b ≤ 122 then b - 32 else b

/-- Python `str.upper` on a list of ASCII codes. -/
def pyUpper (s : List Nat) : List Nat := s.map pyUpperByte

/-- ASCII alphanumeric test (digit, upper, lower). -/
def isPyAlnumByte (b : Nat) : Bool :=
  (48 ≤ b && b ≤ 57) || (65 ≤ b && b ≤ 90) || (97 ≤ b && b ≤ 122)

/-- Python `str.isalnum` on a list of ASCII codes (false on the empty string). -/
def pyIsAlnum (s : List Nat) : Bool := !s.isEmpty && s.all isPyAlnumByte

namespace BaseMessage

/-- `BaseMessage._serialize_uint`. -/
def serialize_uint (value : Int) (bits : Nat) (constrain : Bool := true) :
    Except GDLError (List Bool) :=
  if value < 0 then Except.error GDLError.UnexpectedNegative
  else if constrain then
    Except.ok (natToBits bits (min value.toNat (2 ^ bits - 1)))
  else if value > (2 : Int) ^ bits - 1 then Except.error GDLError.BadIntegerSize
  else Except.ok (natToBits bits value.toNat)

/-- `BaseMessage._deserialize_uint`. -/
def deserialize_uint (bitarray : List Bool) : Nat := bitsToNat bitarray

/-- `BaseMessage._serialize_int`. -/
def serialize_int (value : Int) (bits : Nat) (constrain : Bool := true) :
    Except GDLError (List Bool) :=
  if constrain then
    Except.ok (intToBits bits
      (max (min value ((2 : Int) ^ (bits - 1) - 1)) (0 - (2 : Int) ^ (bits - 1))))
  else if value > (2 : Int) ^ (bits - 1) - 1 then
    Except.error GDLError.BadIntegerSize
  else if value < 0 - (2 : Int) ^ (bits - 1) then
    Except.error GDLError.BadIntegerSize
  else Except.ok (intToBits bits value)

/-- `BaseMessage._deserialize_int`. -/
def deserialize_int (bitarray : List Bool) : Int := bitsToInt bitarray

/-- `BaseMessage._serialize_resolution_uint`: `serialize_uint(int(value / resolution))`. -/
def serialize_resolution_uint (value resolution : PyRat) (bits : Nat) :
    Except GDLError (List Bool) :=
  serialize_uint (ratTrunc (value / resolution)) bits

/-- `BaseMessage._deserialize_resolution_uint`: `int(uint * resolution)`. -/
def deserialize_resolution_uint (bitarray : List Bool) (resolution : PyRat) : Int :=
  ratTrunc ((deserialize_uint bitarray : PyRat) * resolution)

/-- `BaseMessage._serialize_resolution_int`: `serialize_int(int(value / resolution))`. -/
def serialize_resolution_int (value resolution : PyRat) (bits : Nat) :
    Except GDLError (List Bool) :=
  serialize_int (ratTrunc (value / resolution)) bits

/-- `BaseMessage._deserialize_resolution_float`: `int * resolution` as a float. -/
def deserialize_resolution_float (bitarray : List Bool) (resolution : PyRat) : PyRat :=
  (deserialize_int bitarray : PyRat) * resolution

/-- `BaseMessage._deserialize_resolution_int`: `int(float result)`. -/
def deserialize_resolution_int (bitarray : List Bool) (resolution : PyRat) : Int :=
  ratTrunc (deserialize_resolution_float bitarray resolution)

/-- `BaseMessage._serialize_resolution_float` (alias of the int version). -/
def serialize_resolution_float (value resolution : PyRat) (bits : Nat) :
    Except GDLError (List Bool) :=
  serialize_resolution_int value resolution bits

/-- `BaseMessage._serialize_resolution_offset_uint`. -/
def serialize_resolution_offset_uint (value offset resolution : PyRat) (bits : Nat) :
    Except GDLError (List Bool) :=
  serialize_resolution_uint (value + offset) resolution bits

/-- `BaseMessage._deserialize_resolution_offset_uint`. -/
def deserialize_resolution_offset_uint (bitarray : List Bool) (offset : Int)
    (resolution : PyRat) : Int :=
  deserialize_resolution_uint bitarray resolution - offset

/-- `BaseMessage._serialize_bool`. -/
def serialize_bool (value : Bool) : Except GDLError (List Bool) :=
  serialize_uint (if value then 1 else 0) 1

/-- `BaseMessage._deserialize_bool`. -/
def deserialize_bool (bitarray : List Bool) : Bool := bitarray.getD 0 false

/-- `BaseMessage._serialize_str`: right-pad with spaces to `bits / 8` bytes,
truncate, encode. -/
def serialize_str (value : List Nat) (bits : Nat) : List Bool :=
  let num_bytes := bits / 8
  let padded := value ++ List.replicate (num_bytes - value.length) 0x20
  bytesToBits (padded.take num_bytes)

/-- `BaseMessage._deserialize_str`. -/
def deserialize_str (bitarray : List Bool) : List Nat := bitsToBytes bitarray

/-- `BaseMessage._serialize_enum` on the enum's integer value. -/
def serialize_enum (value : Nat) (length : Nat) : Except GDLError (List Bool) :=
  serialize_uint (value : Int) length

/-- `BaseMessage._deserialize_enum`: construct the enum from the unsigned
value, failing on a value that is not a member. -/
def deserialize_enum (bitarray : List Bool) (member : Nat → Bool) :
    Except GDLError Nat :=
  let v := deserialize_uint bitarray
  if member v then Except.ok v else Except.error GDLError.InvalidEnumValue

end BaseMessage

/-- Membership of `gdl90py.enums.AddressType` (values 0–5). -/
def AddressTypeMem (v : Nat) : Bool := v ≤ 5

/-- Membership of `gdl90py.enums.TrackType` (values 0–3). -/
def TrackTypeMem (v : Nat) : Bool := v ≤ 3

/-- Membership of `gdl90py.enums.Integrity` (values 0–11). -/
def IntegrityMem (v : Nat) : Bool := v ≤ 11

/-- Membership of `gdl90py.enums.Accuracy` (values 0–11). -/
def AccuracyMem (v : Nat) : Bool := v ≤ 11

/-- Membership of `gdl90py.enums.EmitterCategory` (0–21 but 8, 13, 16 absent). -/
def EmitterCategoryMem (v : Nat) : Bool :=
  v ≤ 21 && v ≠ 8 && v ≠ 13 && v ≠ 16

/-- Membership of `gdl90py.enums.EmergencyPriorityCode` (values 0–6). -/
def EmergencyPriorityCodeMem (v : Nat) : Bool := v ≤ 6

/-- The record type behind Traffic Report (ID 20) and Ownship Report (ID 10):
`gdl90py.messages._base_traffic_report.BaseTrafficReport`. -/
structure BaseTrafficReport where
  traffic_alert : Bool
  address_type : Nat
  address : Int
  latitude : PyRat
  longitude : PyRat
  pressure_altitude : Option Int
  track_type : Nat
  report_extrapolated : Bool
  airborne : Bool
  integrity : Nat
  accuracy : Nat
  horizontal_velocity : Option Int
  vertical_velocity : Option Int
  track : Int
  emitter_category : Nat
  callsign : Option (List Nat)
  emergency_priority_code : Nat
  deriving DecidableEq, Repr

namespace BaseTrafficReport

/-- `LATLON_RESOLUTION = 180 / 2**23`. -/
def LATLON_RESOLUTION : PyRat := 180 / 2 ^ 23

/-- `_serialize_traffic_alert`: `serialize_uint(int(bool), 4)`. -/
def serialize_traffic_alert (self : BaseTrafficReport) :
    Except GDLError (List Bool) :=
  BaseMessage.serialize_uint (if self.traffic_alert then 1 else 0) 4

/-- `_deserialize_traffic_alert`: reads index 0 (the high bit) of the 4-bit
span. -/
def deserialize_traffic_alert (traffic_alert_bitarray : List Bool) : Bool :=
  traffic_alert_bitarray.getD 0 false

/-- `_serialize_address_type`. -/
def serialize_address_type (self : BaseTrafficReport) :
    Except GDLError (List Bool) :=
  BaseMessage.serialize_enum self.address_type 4

/-- `_serialize_address` (strict 24-bit unsigned, `constrain=False`). -/
def serialize_address (self : BaseTrafficReport) : Except GDLError (List Bool) :=
  BaseMessage.serialize_uint self.address 24 false

/-- `_deserialize_address`. -/
def deserialize_address (address_bitarray : List Bool) : Int :=
  (BaseMessage.deserialize_uint address_bitarray : Int)

/-- `_serialize_latitude`: zeroed when out of range or when
`integrity == Integrity.unknown` (enum value 0). -/
def serialize_latitude (self : BaseTrafficReport) : Except GDLError (List Bool) :=
  let latitude := self.latitude
  let latitude := if ¬(-90 ≤ latitude ∧ latitude ≤ 90) then 0 else latitude
  let latitude := if self.integrity = 0 then 0 else latitude
  BaseMessage.serialize_resolution_float latitude LATLON_RESOLUTION 24

/-- `_deserialize_latitude`. -/
def deserialize_latitude (latitude_bitarray : List Bool) : PyRat :=
  BaseMessage.deserialize_resolution_float latitude_bitarray LATLON_RESOLUTION

/-- `_serialize_longitude`: zeroed when out of range or when
`integrity == Integrity.unknown`. -/
def serialize_longitude (self : BaseTrafficReport) :
    Except GDLError (List Bool) :=
  let longitude := self.longitude
  let longitude := if ¬(-180 ≤ longitude ∧ longitude ≤ 180) then 0 else longitude
  let longitude := if self.integrity = 0 then 0 else longitude
  BaseMessage.serialize_resolution_float longitude LATLON_RESOLUTION 24

/-- `_deserialize_longitude`. -/
def deserialize_longitude (longitude_bitarray : List Bool) : PyRat :=
  BaseMessage.deserialize_resolution_float longitude_bitarray LATLON_RESOLUTION

/-- `_serialize_pressure_altitude` (sentinel `0xFFF`, clamp to
[-1000, 101350], offset 1000, resolution 25). -/
def serialize_pressure_altitude (self : BaseTrafficReport) :
    Except GDLError (List Bool) :=
  match self.pressure_altitude with
  | none => BaseMessage.serialize_uint 0xFFF 12
  | some pa =>
    let pa := max (min pa 101350) (-1000)
    BaseMessage.serialize_resolution_offset_uint (pa : PyRat) 1000 25 12

/-- `_deserialize_pressure_altitude`. -/
def deserialize_pressure_altitude (pressure_altitude_bitarray : List Bool) :
    Option Int :=
  if bitsToNat pressure_altitude_bitarray = 0xFFF then none
  else
    some (BaseMessage.deserialize_resolution_offset_uint
      pressure_altitude_bitarray 1000 25)

/-- `_serialize_track_type`. -/
def serialize_track_type (self : BaseTrafficReport) :
    Except GDLError (List Bool) :=
  BaseMessage.serialize_enum self.track_type 2

/-- `_serialize_report_extrapolated`. -/
def serialize_report_extrapolated (self : BaseTrafficReport) :
    Except GDLError (List Bool) :=
  BaseMessage.serialize_bool self.report_extrapolated

/-- `_serialize_airborne`. -/
def serialize_airborne (self : BaseTrafficReport) :
    Except GDLError (List Bool) :=
  BaseMessage.serialize_bool self.airborne

/-- `_serialize_integrity`. -/
def serialize_integrity (self : BaseTrafficReport) :
    Except GDLError (List Bool) :=
  BaseMessage.serialize_enum self.integrity 4

/-- `_serialize_accuracy`. -/
def serialize_accuracy (self : BaseTrafficReport) :
    Except GDLError (List Bool) :=
  BaseMessage.serialize_enum self.accuracy 4

/-- `_serialize_horizontal_velocity` (sentinel `0xFFF`, clamp at 4094). -/
def serialize_horizontal_velocity (self : BaseTrafficReport) :
    Except GDLError (List Bool) :=
  match self.horizontal_velocity with
  | none => BaseMessage.serialize_uint 0xFFF 12
  | some hv => BaseMessage.serialize_uint (min hv 4094) 12

/-- `_deserialize_horizontal_velocity`. -/
def deserialize_horizontal_velocity (horizontal_velocity_bitarray : List Bool) :
    Option Int :=
  if bitsToNat horizontal_velocity_bitarray = 0xFFF then none
  else some (BaseMessage.deserialize_uint horizontal_velocity_bitarray : Int)

/-- `_serialize_vertical_velocity` (sentinel `0x800`, clamp ±32576 → ±32640,
resolution 64). -/
def serialize_vertical_velocity (self : BaseTrafficReport) :
    Except GDLError (List Bool) :=
  match self.vertical_velocity with
  | none => BaseMessage.serialize_uint 0x800 12
  | some vv =>
    let vv := if vv > 32576 then 32640 else vv
    let vv := if vv < -32576 then -32640 else vv
    BaseMessage.serialize_resolution_int (vv : PyRat) 64 12

/-- `_deserialize_vertical_velocity`. -/
def deserialize_vertical_velocity (vertical_velocity_bitarray : List Bool) :
    Option Int :=
  if bitsToNat vertical_velocity_bitarray = 0x800 then none
  else some (BaseMessage.deserialize_resolution_int vertical_velocity_bitarray 64)

/-- `_serialize_track` (resolution 360/256). -/
def serialize_track (self : BaseTrafficReport) : Except GDLError (List Bool) :=
  BaseMessage.serialize_resolution_uint (self.track : PyRat) (360 / 256) 8

/-- `_deserialize_track`. -/
def deserialize_track (track_bitarray : List Bool) : Int :=
  BaseMessage.deserialize_resolution_uint track_bitarray (360 / 256)

/-- `_serialize_emitter_category`. -/
def serialize_emitter_category (self : BaseTrafficReport) :
    Except GDLError (List Bool) :=
  BaseMessage.serialize_enum self.emitter_category 8

/-- `_serialize_callsign`: strip, upper-case, truncate to `CALLSIGN_BITS`
characters, require alphanumeric, space-pad to 8 bytes. -/
def serialize_callsign (self : BaseTrafficReport) : Except GDLError (List Bool) :=
  let callsign := self.callsign.map pyStrip
  match callsign with
  | some s =>
    if s.isEmpty = false then
      let s := (pyUpper s).take 64
      if pyIsAlnum s = false then Except.error GDLError.InvalidCallsign
      else Except.ok (BaseMessage.serialize_str s 64)
    else Except.ok (BaseMessage.serialize_str [] 64)
  | none => Except.ok (BaseMessage.serialize_str [] 64)

/-- `_deserialize_callsign`: decode and strip trailing whitespace. -/
def deserialize_callsign (callsign_bitarray : List Bool) : List Nat :=
  pyRstrip (BaseMessage.deserialize_str callsign_bitarray)

/-- `_serialize_emergency_priority_code`. -/
def serialize_emergency_priority_code (self : BaseTrafficReport) :
    Except GDLError (List Bool) :=
  BaseMessage.serialize_enum self.emergency_priority_code 4

/-- `BaseTrafficReport.serialize` up to the framing call: the 216-bit body. -/
def serializeBody (self : BaseTrafficReport) : Except GDLError (List Bool) := do
  let ta ← serialize_traffic_alert self
  let aty ← serialize_address_type self
  let addr ← serialize_address self
  let lat ← serialize_latitude self
  let lon ← serialize_longitude self
  let pa ← serialize_pressure_altitude self
  let ab ← serialize_airborne self
  let re ← serialize_report_extrapolated self
  let tt ← serialize_track_type self
  let integ ← serialize_integrity self
  let acc ← serialize_accuracy self
  let hv ← serialize_horizontal_velocity self
  let vv ← serialize_vertical_velocity self
  let tr ← serialize_track self
  let ec ← serialize_emitter_category self
  let cs ← serialize_callsign self
  let epc ← serialize_emergency_priority_code self
  return ta ++ aty ++ addr ++ lat ++ lon ++ pa ++ ab ++ re ++ tt ++ integ ++
    acc ++ hv ++ vv ++ tr ++ ec ++ cs ++ epc ++ natToBits 4 0

/-- `BaseTrafficReport.serialize`: body plus framing, parameterised by the
subclass `MESSAGE_IDS`. -/
def serialize (message_ids : List Nat) (self : BaseTrafficReport)
    (outgoing_lsb : Bool) : Except GDLError (List Nat) :=
  (serializeBody self).map (fun bits => build message_ids bits outgoing_lsb)

/-- `BaseTrafficReport.deserialize` (via `_clean_data`), parameterised by the
subclass `MESSAGE_IDS`. -/
def deserialize (message_ids : List Nat) (data : List Nat)
    (incoming_msb : Bool) : Except GDLError BaseTrafficReport := do
  let (ids, bits) ← deconstruct data incoming_msb
  if ids ≠ message_ids then throw GDLError.InvalidMessageID
  let (taB, bits) := pop_bits bits 4
  let traffic_alert := deserialize_traffic_alert taB
  let (atyB, bits) := pop_bits bits 4
  let address_type ← BaseMessage.deserialize_enum atyB AddressTypeMem
  let (addrB, bits) := pop_bits bits 24
  let address := deserialize_address addrB
  let (latB, bits) := pop_bits bits 24
  let latitude := deserialize_latitude latB
  let (lonB, bits) := pop_bits bits 24
  let longitude := deserialize_longitude lonB
  let (paB, bits) := pop_bits bits 12
  let pressure_altitude := deserialize_pressure_altitude paB
  let (abB, bits) := pop_bits bits 1
  let airborne := BaseMessage.deserialize_bool abB
  let (reB, bits) := pop_bits bits 1
  let report_extrapolated := BaseMessage.deserialize_bool reB
  let (ttB, bits) := pop_bits bits 2
  let track_type ← BaseMessage.deserialize_enum ttB TrackTypeMem
  let (integB, bits) := pop_bits bits 4
  let integrity ← BaseMessage.deserialize_enum integB IntegrityMem
  let (accB, bits) := pop_bits bits 4
  let accuracy ← BaseMessage.deserialize_enum accB AccuracyMem
  let (hvB, bits) := pop_bits bits 12
  let horizontal_velocity := deserialize_horizontal_velocity hvB
  let (vvB, bits) := pop_bits bits 12
  let vertical_velocity := deserialize_vertical_velocity vvB
  let (trB, bits) := pop_bits bits 8
  let track := deserialize_track trB
  let (ecB, bits) := pop_bits bits 8
  let emitter_category ← BaseMessage.deserialize_enum ecB EmitterCategoryMem
  let (csB, bits) := pop_bits bits 64
  let callsign := deserialize_callsign csB
  let (epcB, bits) := pop_bits bits 4
  let emergency_priority_code ←
    BaseMessage.deserialize_enum epcB EmergencyPriorityCodeMem
  let (_, bits) := pop_bits bits 4
  if bits.length ≠ 0 then throw GDLError.DataTooLong
  return { traffic_alert := traffic_alert, address_type := address_type,
           address := address, latitude := latitude, longitude := longitude,
           pressure_altitude := pressure_altitude, track_type := track_type,
           report_extrapolated := report_extrapolated, airborne := airborne,
           integrity := integrity, accuracy := accuracy,
           horizontal_velocity := horizontal_velocity,
           vertical_velocity := vertical_velocity, track := track,
           emitter_category := emitter_category, callsign := some callsign,
           emergency_priority_code := emergency_priority_code }

end BaseTrafficReport

/-- `OwnshipReportMessage.MESSAGE_IDS = (10,)` (ownship_report.py). -/
def OwnshipReportMessage.MESSAGE_IDS : List Nat := [10]

/-- Modelled from the spec: `TrafficReportMessage` (traffic_report.py is not
in the sources; the spec's message table gives it ID 20 and the same 27-byte
layout as Ownship Report, both implemented by `BaseTrafficReport`). -/
def TrafficReportMessage.MESSAGE_IDS : List Nat := [20]

/-- `gdl90py.messages.heartbeat.HeartbeatMessage` (the `datetime.time`
timestamp is its hour/minute/second triple). -/
structure HeartbeatMessage where
  gps_position_valid : Bool
  maintenance_required : Bool
  ident_talkback : Bool
  self_assigned_address_talkback : Bool
  gps_battery_low : Bool
  RATCS_talkback : Bool
  UAT_initialized : Bool
  CSA_requested : Bool
  CSA_unavailable : Bool
  UTC_timing_valid : Bool
  hour : Nat
  minute : Nat
  second : Nat
  uplink_messages_count : Int
  basic_long_messages_count : Int
  deriving DecidableEq, Repr

namespace HeartbeatMessage

/-- `MESSAGE_IDS = (0,)`. -/
def MESSAGE_IDS : List Nat := [0]

/-- `_serialize_timestamp`: seconds since UTC midnight as a 17-bit unsigned. -/
def serialize_timestamp (self : HeartbeatMessage) : Except GDLError (List Bool) :=
  BaseMessage.serialize_uint
    ((self.hour * 3600 + self.minute * 60 + self.second : Nat) : Int) 17

/-- `HeartbeatMessage.serialize` up to the framing call: the 48-bit body,
with the 17-bit timestamp scattered as 1 bit in byte 2 and the low 16 bits
little-endian in bytes 3–4. -/
def serializeBody (self : HeartbeatMessage) : Except GDLError (List Bool) := do
  let timestamp ← serialize_timestamp self
  let gps ← BaseMessage.serialize_bool self.gps_position_valid
  let maint ← BaseMessage.serialize_bool self.maintenance_required
  let ident ← BaseMessage.serialize_bool self.ident_talkback
  let saat ← BaseMessage.serialize_bool self.self_assigned_address_talkback
  let batt ← BaseMessage.serialize_bool self.gps_battery_low
  let ratcs ← BaseMessage.serialize_bool self.RATCS_talkback
  let uat ← BaseMessage.serialize_bool self.UAT_initialized
  let csa_req ← BaseMessage.serialize_bool self.CSA_requested
  let csa_unav ← BaseMessage.serialize_bool self.CSA_unavailable
  let utc ← BaseMessage.serialize_bool self.UTC_timing_valid
  let upl ← BaseMessage.serialize_uint self.uplink_messages_count 5
  let basic ← BaseMessage.serialize_uint self.basic_long_messages_count 10
  return gps ++ maint ++ ident ++ saat ++ batt ++ ratcs ++ natToBits 1 0 ++
    uat ++ timestamp.take 1 ++ csa_req ++ csa_unav ++ natToBits 4 0 ++ utc ++
    timestamp.drop 9 ++ (timestamp.drop 1).take 8 ++ upl ++ natToBits 1 0 ++
    basic

/-- `HeartbeatMessage.serialize`. -/
def serialize (self : HeartbeatMessage) (outgoing_lsb : Bool) :
    Except GDLError (List Nat) :=
  (serializeBody self).map (fun bits => build MESSAGE_IDS bits outgoing_lsb)

end HeartbeatMessage

/-- `gdl90py.messages.height_above_terrain.HeightAboveTerrainMessage`. -/
structure HeightAboveTerrainMessage where
  height_above_terrain : Option Int
  deriving DecidableEq, Repr

namespace HeightAboveTerrainMessage

/-- `MESSAGE_IDS = (9,)`. -/
def MESSAGE_IDS : List Nat := [9]

/-- `_serialize_height_above_terrain`: sentinel `0x8000` for `None`, signed
16-bit otherwise. -/
def serialize_height_above_terrain (self : HeightAboveTerrainMessage) :
    Except GDLError (List Bool) :=
  match self.height_above_terrain with
  | none => BaseMessage.serialize_uint 0x8000 16
  | some h => BaseMessage.serialize_int h 16

/-- `_deserialize_height_above_terrain`. -/
def deserialize_height_above_terrain
    (height_above_terrain_bitarray : List Bool) : Option Int :=
  if bitsToNat height_above_terrain_bitarray = 0x8000 then none
  else some (BaseMessage.deserialize_int height_above_terrain_bitarray)

/-- `HeightAboveTerrainMessage.serialize`. -/
def serialize (self : HeightAboveTerrainMessage) (outgoing_lsb : Bool) :
    Except GDLError (List Nat) :=
  (serialize_height_above_terrain self).map
    (fun bits => build MESSAGE_IDS bits outgoing_lsb)

/-- `HeightAboveTerrainMessage.deserialize`. -/
def deserialize (data : List Nat) (incoming_msb : Bool) :
    Except GDLError HeightAboveTerrainMessage := do
  let (ids, bits) ← deconstruct data incoming_msb
  if ids ≠ MESSAGE_IDS then throw GDLError.InvalidMessageID
  let (hB, bits) := pop_bits bits 16
  let height_above_terrain := deserialize_height_above_terrain hB
  if bits.length ≠ 0 then throw GDLError.DataTooLong
  return { height_above_terrain := height_above_terrain }

end HeightAboveTerrainMessage

/-- `gdl90py.messages.foreflight_ahrs.ForeFlightAHRSMessage`. -/
structure ForeFlightAHRSMessage where
  roll : Option PyRat
  pitch : Option PyRat
  is_magnetic_heading : Option Bool
  heading : Option PyRat
  indicated_airspeed : Option Int
  true_airspeed : Option Int
  deriving DecidableEq, Repr

namespace ForeFlightAHRSMessage

/-- `MESSAGE_IDS = (0x65, 1)`. -/
def MESSAGE_IDS : List Nat := [0x65, 1]

/-- `_serialize_roll`: sentinel `0x7FFF` when `None` or outside ±180,
otherwise signed at 0.1 deg/LSB. -/
def serialize_roll (self : ForeFlightAHRSMessage) :
    Except GDLError (List Bool) :=
  match self.roll with
  | none => BaseMessage.serialize_uint 0x7FFF 16
  | some roll =>
    if ¬(-180 ≤ roll ∧ roll ≤ 180) then BaseMessage.serialize_uint 0x7FFF 16
    else BaseMessage.serialize_resolution_int roll (1 / 10) 16

/-- `_deserialize_roll`. -/
def deserialize_roll (roll_bitarray : List Bool) : Option Int :=
  if bitsToNat roll_bitarray = 0x7FFF then none
  else some (BaseMessage.deserialize_resolution_int roll_bitarray (1 / 10))

/-- `_serialize_pitch` (same scheme as roll). -/
def serialize_pitch (self : ForeFlightAHRSMessage) :
    Except GDLError (List Bool) :=
  match self.pitch with
  | none => BaseMessage.serialize_uint 0x7FFF 16
  | some pitch =>
    if ¬(-180 ≤ pitch ∧ pitch ≤ 180) then BaseMessage.serialize_uint 0x7FFF 16
    else BaseMessage.serialize_resolution_int pitch (1 / 10) 16

/-- `_deserialize_pitch`. -/
def deserialize_pitch (pitch_bitarray : List Bool) : Option Int :=
  if bitsToNat pitch_bitarray = 0x7FFF then none
  else some (BaseMessage.deserialize_resolution_int pitch_bitarray (1 / 10))

/-- `_serialize_heading`: full 16-bit sentinel `0xFFFF` when the heading is
`None`, outside ±360, or `is_magnetic_heading` is `None`; otherwise 1 flag
bit plus 15-bit signed at 0.1 deg/LSB. -/
def serialize_heading (self : ForeFlightAHRSMessage) :
    Except GDLError (List Bool) :=
  match self.heading, self.is_magnetic_heading with
  | some heading, some is_magnetic =>
    if ¬(-360 ≤ heading ∧ heading ≤ 360) then
      BaseMessage.serialize_uint 0xFFFF 16
    else do
      let mb ← BaseMessage.serialize_bool is_magnetic
      let hb ← BaseMessage.serialize_resolution_int heading (1 / 10) 15
      return mb ++ hb
  | _, _ => BaseMessage.serialize_uint 0xFFFF 16

/-- `_deserialize_heading`. -/
def deserialize_heading (heading_bitarray : List Bool) :
    Option Bool × Option Int :=
  if bitsToNat heading_bitarray = 0xFFFF then (none, none)
  else
    (some (heading_bitarray.getD 0 false),
     some (BaseMessage.deserialize_resolution_int (heading_bitarray.drop 1)
       (1 / 10)))

/-- `_serialize_indicated_airspeed` (sentinel `0xFFFF` for `None`). -/
def serialize_indicated_airspeed (self : ForeFlightAHRSMessage) :
    Except GDLError (List Bool) :=
  match self.indicated_airspeed with
  | none => BaseMessage.serialize_uint 0xFFFF 16
  | some v => BaseMessage.serialize_int v 16

/-- `_deserialize_indicated_airspeed`. -/
def deserialize_indicated_airspeed (bitarray : List Bool) : Option Int :=
  if bitsToNat bitarray = 0xFFFF then none
  else some (BaseMessage.deserialize_int bitarray)

/-- `_serialize_true_airspeed` (sentinel `0xFFFF` for `None`). -/
def serialize_true_airspeed (self : ForeFlightAHRSMessage) :
    Except GDLError (List Bool) :=
  match self.true_airspeed with
  | none => BaseMessage.serialize_uint 0xFFFF 16
  | some v => BaseMessage.serialize_int v 16

/-- `_deserialize_true_airspeed`. -/
def deserialize_true_airspeed (bitarray : List Bool) : Option Int :=
  if bitsToNat bitarray = 0xFFFF then none
  else some (BaseMessage.deserialize_int bitarray)

/-- `ForeFlightAHRSMessage.serialize` up to the framing call. -/
def serializeBody (self : ForeFlightAHRSMessage) :
    Except GDLError (List Bool) := do
  let roll ← serialize_roll self
  let pitch ← serialize_pitch self
  let heading ← serialize_heading self
  let ias ← serialize_indicated_airspeed self
  let tas ← serialize_true_airspeed self
  return roll ++ pitch ++ heading ++ ias ++ tas

/-- `ForeFlightAHRSMessage.serialize`. -/
def serialize (self : ForeFlightAHRSMessage) (outgoing_lsb : Bool) :
    Except GDLError (List Nat) :=
  (serializeBody self).map (fun bits => build MESSAGE_IDS bits outgoing_lsb)

/-- `ForeFlightAHRSMessage.deserialize` (decoded integers land in the same
record, cast like Python stores ints in the float-typed fields). -/
def deserialize (data : List Nat) (incoming_msb : Bool) :
    Except GDLError ForeFlightAHRSMessage := do
  let (ids, bits) ← deconstruct data incoming_msb
  if ids ≠ MESSAGE_IDS then throw GDLError.InvalidMessageID
  let (rollB, bits) := pop_bits bits 16
  let roll := deserialize_roll rollB
  let (pitchB, bits) := pop_bits bits 16
  let pitch := deserialize_pitch pitchB
  let (headB, bits) := pop_bits bits 16
  let heading_pair := deserialize_heading headB
  let (iasB, bits) := pop_bits bits 16
  let indicated_airspeed := deserialize_indicated_airspeed iasB
  let (tasB, bits) := pop_bits bits 16
  let true_airspeed := deserialize_true_airspeed tasB
  if bits.length ≠ 0 then throw GDLError.DataTooLong
  return { roll := roll.map (fun i => (i : PyRat)),
           pitch := pitch.map (fun i => (i : PyRat)),
           is_magnetic_heading := heading_pair.1,
           heading := heading_pair.2.map (fun i => (i : PyRat)),
           indicated_airspeed := indicated_airspeed,
           true_airspeed := true_airspeed }

end ForeFlightAHRSMessage

/-- `gdl90py.messages.basic_uat_report.BasicUATReportMessage` (the
`BaseUATReportMessage` layout with an 18-byte uplink payload). -/
structure BasicUATReportMessage where
  time_of_reception : Option Int
  uplink_payload : List Nat
  deriving DecidableEq, Repr

namespace BasicUATReportMessage

/-- `MESSAGE_IDS = (30,)`. -/
def MESSAGE_IDS : List Nat := [30]

/-- `UPLINK_PAYLOAD_BITS = 18 * 8`. -/
def UPLINK_PAYLOAD_BITS : Nat := 18 * 8

/-- `BaseUATReportMessage._serialize_time_of_reception`: sentinel `0xFFFFFF`
when `None` or outside [0, 10^8], else 80 ns/LSB; byte-swapped on the wire. -/
def serialize_time_of_reception (self : BasicUATReportMessage) :
    Except GDLError (List Bool) := do
  let result ←
    match self.time_of_reception with
    | none => BaseMessage.serialize_uint 0xFFFFFF 24
    | some t =>
      if ¬(0 ≤ t ∧ t ≤ 100000000) then BaseMessage.serialize_uint 0xFFFFFF 24
      else BaseMessage.serialize_resolution_uint (t : PyRat) 80 24
  return byteswap result

/-- `BaseUATReportMessage._deserialize_time_of_reception`. -/
def deserialize_time_of_reception (time_of_reception_bitarray : List Bool) :
    Option Int :=
  let swapped := byteswap time_of_reception_bitarray
  if bitsToNat swapped = 0xFFFFFF then none
  else some (BaseMessage.deserialize_resolution_int swapped 80)

/-- `BaseUATReportMessage._serialize_uplink_payload` (strict size). -/
def serialize_uplink_payload (self : BasicUATReportMessage) :
    Except GDLError (List Bool) :=
  let bitarray := bytesToBits self.uplink_payload
  if bitarray.length ≠ UPLINK_PAYLOAD_BITS then
    Except.error GDLError.UplinkDataWrongSize
  else Except.ok bitarray

/-- `BaseUATReportMessage.serialize` for the Basic variant. -/
def serialize (self : BasicUATReportMessage) (outgoing_lsb : Bool) :
    Except GDLError (List Nat) := do
  let tor ← serialize_time_of_reception self
  let up ← serialize_uplink_payload self
  return build MESSAGE_IDS (tor ++ up) outgoing_lsb

/-- `BaseUATReportMessage.deserialize` for the Basic variant. -/
def deserialize (data : List Nat) (incoming_msb : Bool) :
    Except GDLError BasicUATReportMessage := do
  let (ids, bits) ← deconstruct data incoming_msb
  if ids ≠ MESSAGE_IDS then throw GDLError.InvalidMessageID
  let (torB, bits) := pop_bits bits 24
  let time_of_reception := deserialize_time_of_reception torB
  let (upB, bits) := pop_bits bits UPLINK_PAYLOAD_BITS
  let uplink_payload := bitsToBytes upB
  if bits.length ≠ 0 then throw GDLError.DataTooLong
  return { time_of_reception := time_of_reception,
           uplink_payload := uplink_payload }

end BasicUATReportMessage

/-- Scanner deciding the frame-interior invariant: no `0x7E` byte, and every
`0x7D` byte immediately followed by an escape complement (`0x5E` or `0x5D`,
the images of `0x7E`/`0x7D` under XOR `0x20`).  The flag records that the
previous byte was `0x7D`. -/
def noLoneAux : List Nat → Bool → Bool
  | [], pending => !pending
  | b :: rest, true => (b == 0x5E || b == 0x5D) && noLoneAux rest false
  | b :: rest, false =>
    if b = 0x7E then false
    else if b = 0x7D then noLoneAux rest true
    else noLoneAux rest false

/-- The bytes of a frame strictly between the two flag bytes. -/
def frameInterior (frame : List Nat) : List Nat := (frame.drop 1).dropLast

/-- The frame-interior invariant of one frame. -/
def interiorWellEscaped (frame : List Nat) : Bool := noLoneAux (frameInterior frame) false

/-- The frame-interior invariant of a serializer result (vacuous on error:
on failure no bytes are emitted). -/
def resultWellEscaped : Except GDLError (List Nat) → Bool
  | Except.error _ => true
  | Except.ok frame => interiorWellEscaped frame

/-- From the spec's words (for comparison with `compute_crc`): the claimed
per-byte recurrence `crc = table[(crc >> 8) XOR byte] XOR ((crc << 8) &
0xFFFF)`, with the table entry for polynomial `0x1021`. -/
def crcSpecClaimedStep (crc c : Nat) : Nat :=
  crcTableEntry ((crc >>> 8) ^^^ c) ^^^ ((crc <<< 8) &&& 0xFFFF)

/-- From the spec's words: the full claimed CRC, emitted little-endian. -/
def crc16_spec_claimed (data : List Nat) : List Nat :=
  crcToBytesLE (data.foldl crcSpecClaimedStep 0)

/-- The recurrence `compute_crc` actually implements, written directly with
the mathematical table-entry function instead of the indexed list:
`crc = table[crc >> 8] XOR ((crc << 8) & 0xFFFF) XOR byte`. -/
def crcSpecAmendedStep (crc c : Nat) : Nat :=
  crcTableEntry (crc >>> 8) ^^^ ((crc <<< 8) &&& 0xFFFF) ^^^ c

/-- From the spec's words (for comparison with `serialize_resolution_int`):
`floor(value / res)`, the rounding the spec's field-codec table prescribes
for `int_scaled`. -/
def spec_floor (q : PyRat) : Int := Int.fdiv q.num q.den

/-- Concrete Traffic Report record with an active traffic alert and benign
values everywhere else. -/
def c1Report : BaseTrafficReport :=
  { traffic_alert := true, address_type := 0, address := 0, latitude := 0,
    longitude := 0, pressure_altitude := none, track_type := 0,
    report_extrapolated := false, airborne := false, integrity := 0,
    accuracy := 0, horizontal_velocity := none, vertical_velocity := none,
    track := 0, emitter_category := 0, callsign := none,
    emergency_priority_code := 0 }

/-- The record `c1Report` decodes to after a serialize/deserialize round
trip: identical except that the traffic alert has been lost and the empty
callsign reads back as the empty string. -/
def c1Decoded : BaseTrafficReport :=
  { c1Report with traffic_alert := false, callsign := some [] }

/-- Ownship Report record with `integrity = unknown` and the given
coordinates (spec scenario 3 uses latitude 47.0, longitude 2.0). -/
def c4Report (lat lon : PyRat) : BaseTrafficReport :=
  { c1Report with traffic_alert := false, latitude := lat, longitude := lon }

/-- What any `c4Report lat lon` decodes to after a round trip: both
coordinates zero. -/
def c4Decoded : BaseTrafficReport :=
  { c1Report with
    traffic_alert := false, latitude := 0, longitude := 0,
    callsign := some [] }

/-- A 65-character callsign whose only non-alphanumeric character sits at
index 64: sixty-four `A`s followed by `!`. -/
def c6BadCallsign : List Nat := List.replicate 64 65 ++ [33]

/-- Spec scenario 1: Heartbeat at 00:00:01 with only `UAT_initialized` set. -/
def c8Heartbeat : HeartbeatMessage :=
  { gps_position_valid := false, maintenance_required := false,
    ident_talkback := false, self_assigned_address_talkback := false,
    gps_battery_low := false, RATCS_talkback := false, UAT_initialized := true,
    CSA_requested := false, CSA_unavailable := false, UTC_timing_valid := false,
    hour := 0, minute := 0, second := 1,
    uplink_messages_count := 0, basic_long_messages_count := 0 }

/-- ForeFlight AHRS record carrying the given (possibly out-of-range) roll,
pitch and heading, with a magnetic heading flag and in-range airspeeds. -/
def c10AHRS (roll pitch heading : PyRat) : ForeFlightAHRSMessage :=
  { roll := some roll, pitch := some pitch, heading := some heading,
    is_magnetic_heading := some true, indicated_airspeed := some 100,
    true_airspeed := some 120 }

/-- Basic UAT Report record carrying the given (possibly out-of-range) time
of reception over a zero 18-byte payload. -/
def c10UAT (tor : Int) : BasicUATReportMessage :=
  { time_of_reception := some tor, uplink_payload := List.replicate 18 0 }

deriving instance DecidableEq for Except

/-! ## Bit-level lemmas -/

theorem natToBits_length (w v : Nat) : (natToBits w v).length = w := by
  induction w generalizing v with
  | zero => rfl
  | succ w ih => simp [natToBits, ih]

theorem bitsToNat_append_single (xs : List Bool) (b : Bool) :
    bitsToNat (xs ++ [b]) = 2 * bitsToNat xs + (if b then 1 else 0) := by
  simp [bitsToNat, List.foldl_append]

theorem bitsToNat_natToBits (w v : Nat) : bitsToNat (natToBits w v) = v % 2 ^ w := by
  induction w generalizing v with
  | zero => simp [natToBits, bitsToNat, Nat.mod_one]
  | succ w ih =>
    rw [natToBits, bitsToNat_append_single, ih]
    have hsplit : v % (2 * 2 ^ w) = v % 2 + 2 * (v / 2 % 2 ^ w) := Nat.mod_mul
    have hpow : 2 ^ (w + 1) = 2 * 2 ^ w := by ring
    rcases Nat.mod_two_eq_zero_or_one v with h | h <;>
      simp [h, hpow, hsplit]
    all_goals omega

theorem bitsToInt_intToBits (bits : Nat) (v : Int) (hbits : 0 < bits)
    (hlo : -(2 ^ (bits - 1)) ≤ v) (hhi : v ≤ 2 ^ (bits - 1) - 1) :
    bitsToInt (intToBits bits v) = v := by
  have hb : bits - 1 + 1 = bits := Nat.succ_pred_eq_of_pos hbits
  have hpow : (2 : Int) ^ bits = 2 * 2 ^ (bits - 1) := by
    conv_lhs => rw [← hb]
    rw [pow_succ]; ring
  have hP : (0 : Int) < 2 ^ (bits - 1) := by positivity
  have hpos : (0 : Int) < 2 ^ bits := by positivity
  have hcases : v % (2 : Int) ^ bits = v ∨ v % (2 : Int) ^ bits = v + 2 ^ bits := by
    rcases le_or_lt 0 v with hv | hv
    · left
      exact Int.emod_eq_of_lt hv (by omega)
    · right
      have h1 : (v + 2 ^ bits * 1) % (2 : Int) ^ bits = v % 2 ^ bits :=
        Int.add_mul_emod_self_left v ((2 : Int) ^ bits) 1
      have h2 : (v + 2 ^ bits * 1) % (2 : Int) ^ bits = v + 2 ^ bits * 1 :=
        Int.emod_eq_of_lt (by omega) (by omega)
      omega
  have hm0 : 0 ≤ v % (2 : Int) ^ bits := Int.emod_nonneg v (ne_of_gt hpos)
  have hmlt : v % (2 : Int) ^ bits < 2 ^ bits := Int.emod_lt_of_pos v hpos
  have hcast : ((2 ^ bits : Nat) : Int) = (2 : Int) ^ bits := by push_cast; ring
  simp only [bitsToInt, intToBits]
  rw [natToBits_length, bitsToNat_natToBits]
  have hXeq : (v % (2 : Int) ^ bits).toNat % 2 ^ bits = (v % (2 : Int) ^ bits).toNat :=
    Nat.mod_eq_of_lt (by omega)
  rw [hXeq]
  split
  · next hge => omega
  · next hlt => omega

/-! ## Escaping lemmas -/

theorem escape_noLone (xs : List Nat) : noLoneAux (escape xs) false = true := by
  induction xs with
  | nil => rfl
  | cons b t ih =>
    by_cases h : b = 0x7E ∨ b = 0x7D
    · have hesc : escape (b :: t) = 0x7D :: (b ^^^ 0x20) :: escape t := by
        rw [escape, if_pos h]
      rcases h with h | h <;> subst h <;>
        simpa [hesc, noLoneAux] using ih
    · push_neg at h
      rw [escape, if_neg (by tauto)]
      simpa [noLoneAux, h.1, h.2] using ih

theorem frameInterior_build (ids : List Nat) (data : List Bool) :
    frameInterior (build ids data false)
      = escape (ids ++ bitsToBytes data
          ++ compute_crc (ids ++ bitsToBytes data)) := by
  simp [build, frameInterior, List.dropLast_concat]

theorem build_wellEscaped (ids : List Nat) (data : List Bool) :
    interiorWellEscaped (build ids data false) = true := by
  rw [interiorWellEscaped, frameInterior_build]
  exact escape_noLone _

theorem resultWellEscaped_map (ids : List Nat)
    (e : Except GDLError (List Bool)) :
    resultWellEscaped (e.map (fun bits => build ids bits false)) = true := by
  cases e with
  | error err => rfl
  | ok bits => simpa [resultWellEscaped, Except.map] using build_wellEscaped ids bits

/-! ## CRC lemmas -/

theorem crcShift_lt (x : Nat) : crcShift x < 2 ^ 16 := by
  rw [crcShift]
  apply Nat.xor_lt_two_pow
  · exact lt_of_le_of_lt Nat.and_le_right (by norm_num)
  · split <;> norm_num

theorem crcTableEntry_lt (i : Nat) : crcTableEntry i < 2 ^ 16 := by
  rw [crcTableEntry]
  have h : ∀ n x, x < 2 ^ 16 → crcShift^[n] x < 2 ^ 16 := by
    intro n
    induction n with
    | zero => intro x hx; simpa using hx
    | succ n ih =>
      intro x hx
      rw [Function.iterate_succ_apply]
      exact ih _ (crcShift_lt x)
  exact h 8 _ (lt_of_le_of_lt Nat.and_le_right (by norm_num))

theorem crc_table_getD (i : Nat) (h : i < 256) :
    crc_table.getD i 0 = crcTableEntry i := by
  rw [crc_table, List.getD_eq_getElem?_getD, List.getElem?_map,
    List.getElem?_range h]
  rfl

theorem shiftRight8_lt (crc : Nat) (h : crc < 2 ^ 16) : crc >>> 8 < 256 := by
  rw [Nat.shiftRight_eq_div_pow]
  omega

theorem crcStep_eq_spec (crc c : Nat) (h : crc < 2 ^ 16) :
    crcStep crc c = crcSpecAmendedStep crc c := by
  rw [crcStep, crcSpecAmendedStep, crc_table_getD _ (shiftRight8_lt crc h)]

theorem crcStep_lt (crc c : Nat) (hc : c < 256) (h : crc < 2 ^ 16) :
    crcStep crc c < 2 ^ 16 := by
  rw [crcStep, crc_table_getD _ (shiftRight8_lt crc h)]
  apply Nat.xor_lt_two_pow
  · apply Nat.xor_lt_two_pow (crcTableEntry_lt _)
    exact lt_of_le_of_lt Nat.and_le_right (by norm_num)
  · omega

theorem crcValue_eq_spec (data : List Nat) (h : ∀ c ∈ data, c < 256) :
    crcValue data = data.foldl crcSpecAmendedStep 0 := by
  rw [crcValue]
  suffices H : ∀ acc, acc < 2 ^ 16 →
      data.foldl crcStep acc = data.foldl crcSpecAmendedStep acc from
    H 0 (by norm_num)
  induction data with
  | nil => intro acc hacc; rfl
  | cons c t ih =>
    intro acc hacc
    have hc : c < 256 := h c (List.mem_cons_self c t)
    have ht : ∀ x ∈ t, x < 256 := fun x hx => h x (List.mem_cons_of_mem c hx)
    simp only [List.foldl_cons]
    rw [← crcStep_eq_spec acc c hacc]
    exact ih ht _ (crcStep_lt acc c hc hacc)

/-! ## PyRat order lemmas -/

theorem PyRat.not_le {a b : PyRat} (h : b < a) : ¬ a ≤ b := by
  have h1 : b.num * (a.den : Int) < a.num * (b.den : Int) := h
  intro hle
  have h2 : a.num * (b.den : Int) ≤ b.num * (a.den : Int) := hle
  omega

/-! ## Claim theorems -/

/-- C1: the round-trip property fails on the code: a Traffic Report with
`traffic_alert = true` serialises (lsb=false) and deserialises
(incoming_msb=true) to a record with `traffic_alert = false`, because the
encoder writes the flag as the 4-bit unsigned value 1 (low bit of the span)
while the decoder reads index 0 (the high bit) of the span. -/
theorem C1_traffic_alert_roundtrip_bug :
    c1Report.traffic_alert = true
    ∧ (BaseTrafficReport.serialize TrafficReportMessage.MESSAGE_IDS c1Report
          false >>=
        fun f => BaseTrafficReport.deserialize TrafficReportMessage.MESSAGE_IDS
          f true)
      = Except.ok c1Decoded
    ∧ c1Decoded.traffic_alert = false := by
  refine ⟨rfl, by decide, rfl⟩

/-- C2 counterexample: `compute_crc` does not implement the spec's claimed
recurrence `crc = table[(crc >> 8) XOR byte] XOR ((crc << 8) & 0xFFFF)`:
on the single byte `0x01` the code yields `0x0001` (bytes `01 00`) while the
claimed recurrence yields `0x1021` (bytes `21 10`). -/
theorem C2_crc_recurrence_counterexample :
    compute_crc [0x01] = [0x01, 0x00]
    ∧ crc16_spec_claimed [0x01] = [0x21, 0x10]
    ∧ compute_crc [0x01] ≠ crc16_spec_claimed [0x01] := by
  refine ⟨by decide, by decide, by decide⟩

/-- C2 (amended): for every byte string, `compute_crc` equals the recurrence
`crc = table[crc >> 8] XOR ((crc << 8) & 0xFFFF) XOR byte` starting from 0,
over the 256-entry table for polynomial `0x1021`, emitted little-endian
(low byte first): the byte is XORed into the updated value, not into the
table index. -/
theorem C2_crc_recurrence_amended (data : List Nat)
    (h : ∀ c ∈ data, c < 256) :
    compute_crc data = crcToBytesLE (data.foldl crcSpecAmendedStep 0) := by
  rw [compute_crc, crcValue_eq_spec data h]

/-- Witness for C2: the amended recurrence at the concrete bytes `12 34`. -/
theorem C2_crc_recurrence_amended_witness :
    compute_crc [0x12, 0x34]
      = crcToBytesLE ([0x12, 0x34].foldl crcSpecAmendedStep 0) :=
  C2_crc_recurrence_amended [0x12, 0x34] (by decide)

/-- C3: the claim fails on the code: `deconstruct` raises `MissingFlagBytes`
only when BOTH the first and the last byte differ from `0x7E` (Python `and`
instead of `or`).  On `[0x7E, 0x00]` (correct opening flag, wrong closing
byte) it proceeds to unescaping and CRC checking and fails with `InvalidCRC`
instead; on `[0x00, 0x00]` (both flags missing) it does raise
`MissingFlagBytes`. -/
theorem C3_flag_check_bug :
    deconstruct [0x7E, 0x00] true = Except.error GDLError.InvalidCRC
    ∧ deconstruct [0x00, 0x00] true = Except.error GDLError.MissingFlagBytes := by
  refine ⟨by decide, by decide⟩

/-- C4: whenever `integrity = Integrity.unknown` (enum value 0), the encoder
emits all-zero 24-bit latitude and longitude spans regardless of the
record's coordinates, and the spec's scenario (latitude 47.0, longitude 2.0)
round-trips to latitude 0.0 and longitude 0.0. -/
theorem C4_integrity_unknown_zero_latlon :
    (∀ r : BaseTrafficReport, r.integrity = 0 →
        BaseTrafficReport.serialize_latitude r
            = Except.ok (List.replicate 24 false)
        ∧ BaseTrafficReport.serialize_longitude r
            = Except.ok (List.replicate 24 false))
    ∧ ((BaseTrafficReport.serialize OwnshipReportMessage.MESSAGE_IDS
          (c4Report 47 2) false >>=
        fun f => BaseTrafficReport.deserialize OwnshipReportMessage.MESSAGE_IDS
          f true)
        = Except.ok c4Decoded
      ∧ c4Decoded.latitude = 0 ∧ c4Decoded.longitude = 0) := by
  refine ⟨fun r h => ⟨?_, ?_⟩, by decide, rfl, rfl⟩
  · simp only [BaseTrafficReport.serialize_latitude, h, if_pos]
    decide
  · simp only [BaseTrafficReport.serialize_longitude, h, if_pos]
    decide

/-- Witness for C4: the zero-span property applied at the concrete record
`c4Report 47 2`, whose integrity is `unknown`. -/
theorem C4_integrity_unknown_zero_latlon_witness :
    BaseTrafficReport.serialize_latitude (c4Report 47 2)
        = Except.ok (List.replicate 24 false)
    ∧ BaseTrafficReport.serialize_longitude (c4Report 47 2)
        = Except.ok (List.replicate 24 false) :=
  C4_integrity_unknown_zero_latlon.1 (c4Report 47 2) rfl

/-- C5 counterexample: the scaled signed-integer encoder does not encode
`floor(v / res)`: at `v = -3`, `res = 2` (so `v / res = -1.5`) it encodes the
raw value `-1` (Python `int()` truncation toward zero), not the floor `-2`. -/
theorem C5_floor_counterexample :
    BaseMessage.serialize_resolution_int (-3) 2 12
        = Except.ok (intToBits 12 (-1))
    ∧ spec_floor ((-3 : PyRat) / 2) = -2
    ∧ BaseMessage.serialize_resolution_int (-3) 2 12
        ≠ Except.ok (intToBits 12 (spec_floor ((-3 : PyRat) / 2))) := by
  refine ⟨by decide, by decide, by decide⟩

/-- C5 (amended): `int_scaled` encodes the two's-complement representation of
the truncation toward zero of `v / res` (Python `int()`), not its floor;
whenever that truncation lies in the signed range of the declared width the
encoder emits exactly its two's-complement bits, and reading those bits back
as a signed integer recovers it. -/
theorem C5_truncation_amended (v res : PyRat) (bits : Nat) (hbits : 0 < bits)
    (hlo : -(2 ^ (bits - 1)) ≤ ratTrunc (v / res))
    (hhi : ratTrunc (v / res) ≤ 2 ^ (bits - 1) - 1) :
    BaseMessage.serialize_resolution_int v res bits
      = Except.ok (intToBits bits (ratTrunc (v / res)))
    ∧ bitsToInt (intToBits bits (ratTrunc (v / res))) = ratTrunc (v / res) := by
  constructor
  · simp only [BaseMessage.serialize_resolution_int, BaseMessage.serialize_int,
      if_true]
    congr 1
    have h1 : ratTrunc (v / res) ⊓ ((2 : Int) ^ (bits - 1) - 1)
        = ratTrunc (v / res) := inf_eq_left.mpr hhi
    have h2 : ratTrunc (v / res) ⊔ (0 - (2 : Int) ^ (bits - 1))
        = ratTrunc (v / res) := sup_eq_left.mpr (by linarith)
    rw [h1, h2]
  · exact bitsToInt_intToBits bits _ hbits hlo hhi

/-- Witness for C5: the amended statement at `v = -3`, `res = 2`,
`bits = 12`. -/
theorem C5_truncation_amended_witness :
    BaseMessage.serialize_resolution_int (-3) 2 12
        = Except.ok (intToBits 12 (ratTrunc ((-3 : PyRat) / 2)))
    ∧ bitsToInt (intToBits 12 (ratTrunc ((-3 : PyRat) / 2)))
        = ratTrunc ((-3 : PyRat) / 2) :=
  C5_truncation_amended (-3) 2 12 (by decide) (by decide) (by decide)

theorem isPyAlnumByte_pyUpperByte (b : Nat) :
    isPyAlnumByte (pyUpperByte b) = isPyAlnumByte b := by
  simp only [pyUpperByte, isPyAlnumByte]
  split
  · next h =>
    rw [Bool.eq_iff_iff]
    simp only [Bool.or_eq_true, Bool.and_eq_true, decide_eq_true_eq]
    omega
  · rfl

theorem pyIsAlnum_eq_false_iff (s : List Nat) :
    pyIsAlnum s = false ↔ s = [] ∨ ∃ c ∈ s, isPyAlnumByte c = false := by
  cases s with
  | nil => exact iff_of_true rfl (Or.inl rfl)
  | cons a t =>
    simp only [pyIsAlnum, List.isEmpty_cons, Bool.not_false, Bool.true_and,
      List.cons_ne_nil, false_or]
    constructor
    · intro h
      have h2 : ¬ ∀ x ∈ a :: t, isPyAlnumByte x = true := by
        intro hall
        rw [List.all_eq_true.mpr hall] at h
        simp at h
      push_neg at h2
      obtain ⟨c, hc, hcf⟩ := h2
      exact ⟨c, hc, by simpa using hcf⟩
    · intro h
      obtain ⟨c, hc, hcf⟩ := h
      rcases h3 : (a :: t).all isPyAlnumByte with _ | _
      · rfl
      · exact absurd (List.all_eq_true.mp h3 c hc) (by simp [hcf])

theorem pyStrip_eq_nil (cs : List Nat) (h : ∀ c ∈ cs, isPySpace c = true) :
    pyStrip cs = [] := by
  rw [pyStrip, List.dropWhile_eq_nil_iff.mpr h]
  rfl

theorem pyIsAlnum_upper_take_eq_false_iff (s : List Nat) (hs : s ≠ []) :
    pyIsAlnum ((pyUpper s).take 64) = false
      ↔ ∃ c ∈ s.take 64, isPyAlnumByte c = false := by
  have hu : (pyUpper s).take 64 = pyUpper (s.take 64) := by
    rw [pyUpper, pyUpper, List.map_take]
  rw [pyIsAlnum_eq_false_iff, hu]
  constructor
  · rintro (hnil | ⟨c, hc, hcf⟩)
    · exfalso
      have h1 : (s.take 64).length = 0 := by
        have h0 := congrArg List.length hnil
        simpa [pyUpper] using h0
      rw [List.length_take] at h1
      have h2 : s.length = 0 := by omega
      exact hs (List.eq_nil_of_length_eq_zero h2)
    · obtain ⟨d, hd, hdc⟩ := List.mem_map.mp hc
      refine ⟨d, hd, ?_⟩
      rw [← isPyAlnumByte_pyUpperByte d, hdc]
      exact hcf
  · rintro ⟨c, hc, hcf⟩
    right
    refine ⟨pyUpperByte c, List.mem_map_of_mem _ hc, ?_⟩
    rw [isPyAlnumByte_pyUpperByte]
    exact hcf

/-- C6 counterexample: a 65-character callsign whose only non-alphanumeric
character is at index 64 (`"AAA…A!"`): after stripping and upper-casing it is
non-empty and contains a non-alphanumeric character, yet `_serialize_callsign`
succeeds (it validates only the first 64 characters) and encodes `AAAAAAAA`. -/
theorem C6_callsign_counterexample :
    pyStrip c6BadCallsign ≠ []
    ∧ (∃ c ∈ pyUpper (pyStrip c6BadCallsign), isPyAlnumByte c = false)
    ∧ BaseTrafficReport.serialize_callsign
        { c1Report with callsign := some c6BadCallsign }
      = Except.ok (bytesToBits (List.replicate 8 65)) := by
  refine ⟨by decide, ⟨33, by decide, by decide⟩, by decide⟩

/-- C6 (amended): serialising raises `InvalidCallsign` exactly when the
callsign, after trimming surrounding whitespace and upper-casing, is
non-empty and contains a non-alphanumeric character among its FIRST 64
characters (the encoder truncates to 64 characters before validating; only
8 bytes reach the wire); a callsign that is `None` or whitespace-only encodes
as eight `0x20` bytes, and `"N825V"` encodes as its ASCII bytes right-padded
with spaces to 8 bytes.  The whole-message check is witnessed on `"ab!c"`. -/
theorem C6_callsign_amended :
    (∀ cs : List Nat,
      BaseTrafficReport.serialize_callsign
          { c1Report with callsign := some cs }
          = Except.error GDLError.InvalidCallsign
        ↔ pyStrip cs ≠ []
          ∧ ∃ c ∈ (pyStrip cs).take 64, isPyAlnumByte c = false)
    ∧ BaseTrafficReport.serialize_callsign
        { c1Report with callsign := none }
        = Except.ok (bytesToBits (List.replicate 8 32))
    ∧ (∀ cs : List Nat, (∀ c ∈ cs, isPySpace c = true) →
        BaseTrafficReport.serialize_callsign
          { c1Report with callsign := some cs }
          = Except.ok (bytesToBits (List.replicate 8 32)))
    ∧ BaseTrafficReport.serialize_callsign
        { c1Report with callsign := some [78, 56, 50, 53, 86] }
        = Except.ok (bytesToBits [78, 56, 50, 53, 86, 32, 32, 32])
    ∧ BaseTrafficReport.serialize TrafficReportMessage.MESSAGE_IDS
        { c1Report with callsign := some [97, 98, 33, 99] } false
        = Except.error GDLError.InvalidCallsign := by
  refine ⟨fun cs => ?_, by decide, fun cs hws => ?_, by decide, by decide⟩
  · have hmain : BaseTrafficReport.serialize_callsign
        { c1Report with callsign := some cs }
        = (if (pyStrip cs).isEmpty = false then
            if pyIsAlnum ((pyUpper (pyStrip cs)).take 64) = false then
              Except.error GDLError.InvalidCallsign
            else
              Except.ok
                (BaseMessage.serialize_str ((pyUpper (pyStrip cs)).take 64) 64)
          else Except.ok (BaseMessage.serialize_str [] 64)) := rfl
    rw [hmain]
    by_cases hs : pyStrip cs = []
    · simp [hs]
    · have hne : (pyStrip cs).isEmpty = false := by
        simpa [List.isEmpty_iff] using hs
      rw [if_pos hne]
      by_cases ha : pyIsAlnum ((pyUpper (pyStrip cs)).take 64) = false
      · rw [if_pos ha]
        exact iff_of_true rfl
          ⟨hs, (pyIsAlnum_upper_take_eq_false_iff _ hs).mp ha⟩
      · rw [if_neg ha]
        apply iff_of_false
        · simp
        · rintro ⟨_, hbad⟩
          exact ha ((pyIsAlnum_upper_take_eq_false_iff _ hs).mpr hbad)
  · have hsnil : pyStrip cs = [] := pyStrip_eq_nil cs hws
    have hmain : BaseTrafficReport.serialize_callsign
        { c1Report with callsign := some cs }
        = (if (pyStrip cs).isEmpty = false then
            if pyIsAlnum ((pyUpper (pyStrip cs)).take 64) = false then
              Except.error GDLError.InvalidCallsign
            else
              Except.ok
                (BaseMessage.serialize_str ((pyUpper (pyStrip cs)).take 64) 64)
          else Except.ok (BaseMessage.serialize_str [] 64)) := rfl
    rw [hmain, hsnil]
    decide

/-- Witness for C6: the iff applied at the concrete callsign `"ab!c"`, and
the whitespace rule applied at the concrete callsign `" \t"`. -/
theorem C6_callsign_amended_witness :
    BaseTrafficReport.serialize_callsign
        { c1Report with callsign := some [97, 98, 33, 99] }
        = Except.error GDLError.InvalidCallsign
    ∧ BaseTrafficReport.serialize_callsign
        { c1Report with callsign := some [32, 9] }
        = Except.ok (bytesToBits (List.replicate 8 32)) :=
  ⟨(C6_callsign_amended.1 [97, 98, 33, 99]).mpr (by decide),
   C6_callsign_amended.2.2.1 [32, 9] (by decide)⟩

/-- C7: Height Above Terrain sentinel behaviour: `None` serialises to body
bytes `0x80 0x00`; a body whose 16-bit span equals `0x8000` deserialises to
`None`; any other 16-bit pattern decodes to its two's-complement signed
value (in feet). -/
theorem C7_height_above_terrain_sentinel :
    (HeightAboveTerrainMessage.serialize_height_above_terrain
        { height_above_terrain := none }).map bitsToBytes
      = Except.ok [0x80, 0x00]
    ∧ HeightAboveTerrainMessage.deserialize_height_above_terrain
        (natToBits 16 0x8000) = none
    ∧ ∀ n : Nat, n < 65536 → n ≠ 0x8000 →
        HeightAboveTerrainMessage.deserialize_height_above_terrain
            (natToBits 16 n)
          = some (if n < 32768 then (n : Int) else (n : Int) - 65536) := by
  refine ⟨by decide, by decide, fun n hn hne => ?_⟩
  have hu : bitsToNat (natToBits 16 n) = n := by
    rw [bitsToNat_natToBits]
    exact Nat.mod_eq_of_lt (by norm_num [hn])
  rw [HeightAboveTerrainMessage.deserialize_height_above_terrain, hu,
    if_neg hne]
  simp only [BaseMessage.deserialize_int, bitsToInt, natToBits_length, hu]
  norm_num
  split
  · next h => rw [if_neg (by omega)]
  · next h => rw [if_pos (by omega)]

/-- Witness for C7: the signed decode rule at the concrete patterns `1`
(positive) and `0xFFFF` (negative). -/
theorem C7_height_above_terrain_sentinel_witness :
    HeightAboveTerrainMessage.deserialize_height_above_terrain (natToBits 16 1)
      = some (if 1 < 32768 then ((1 : Nat) : Int) else ((1 : Nat) : Int) - 65536)
    ∧ HeightAboveTerrainMessage.deserialize_height_above_terrain
        (natToBits 16 65535)
      = some (if 65535 < 32768 then ((65535 : Nat) : Int)
          else ((65535 : Nat) : Int) - 65536) :=
  ⟨C7_height_above_terrain_sentinel.2.2 1 (by decide) (by decide),
   C7_height_above_terrain_sentinel.2.2 65535 (by decide) (by decide)⟩

/-- C8 counterexample: the spec-scenario Heartbeat frame is not 9 bytes
long — flags (2) + message ID (1) + body (6) + CRC (2) make 11 bytes. -/
theorem C8_heartbeat_frame_length_counterexample :
    (HeartbeatMessage.serialize c8Heartbeat false).map List.length
      ≠ Except.ok 9 := by
  decide

/-- C8 (amended): the spec-scenario Heartbeat (timestamp 00:00:01, counts 0,
only `UAT_initialized` set, `outgoing_lsb = false`) produces the 11-byte
frame `7E 00 01 00 01 00 00 00 85 45 7E`: it starts with `0x7E 0x00 0x01`,
ends with `0x7E`, and its two CRC bytes (offsets 8–9, inside the flags)
equal the little-endian CRC-16-CCITT of `0x00` followed by the 6 body
bytes. -/
theorem C8_heartbeat_frame_amended :
    HeartbeatMessage.serialize c8Heartbeat false
      = Except.ok [0x7E, 0x00, 0x01, 0x00, 0x01, 0x00, 0x00, 0x00, 0x85, 0x45,
          0x7E]
    ∧ (HeartbeatMessage.serialize c8Heartbeat false).map List.length
      = Except.ok 11
    ∧ (HeartbeatMessage.serialize c8Heartbeat false).map (List.take 3)
      = Except.ok [0x7E, 0x00, 0x01]
    ∧ (HeartbeatMessage.serialize c8Heartbeat false).map List.getLast?
      = Except.ok (some 0x7E)
    ∧ (HeartbeatMessage.serialize c8Heartbeat false).map
        (fun f => (f.drop 8).take 2)
      = Except.ok (compute_crc [0x00, 0x01, 0x00, 0x01, 0x00, 0x00, 0x00]) := by
  refine ⟨by decide, by decide, by decide, by decide, by decide⟩

/-- C9: every byte of a built frame strictly between the two flag bytes is
neither `0x7E` nor a lone `0x7D` (each `0x7D` is immediately followed by an
escape complement, the original byte XOR `0x20`).  This holds for `build`
on every message ID list and body, and hence for every embedded message
serializer in non-LSB mode (vacuously on serialisation failure, where no
bytes are emitted). -/
theorem C9_frame_escape_invariant :
    (∀ (ids : List Nat) (data : List Bool),
        interiorWellEscaped (build ids data false) = true)
    ∧ (∀ (ids : List Nat) (r : BaseTrafficReport),
        resultWellEscaped (BaseTrafficReport.serialize ids r false) = true)
    ∧ (∀ r : HeartbeatMessage,
        resultWellEscaped (HeartbeatMessage.serialize r false) = true)
    ∧ (∀ r : HeightAboveTerrainMessage,
        resultWellEscaped (HeightAboveTerrainMessage.serialize r false) = true)
    ∧ (∀ r : ForeFlightAHRSMessage,
        resultWellEscaped (ForeFlightAHRSMessage.serialize r false) = true)
    ∧ (∀ r : BasicUATReportMessage,
        resultWellEscaped (BasicUATReportMessage.serialize r false) = true) := by
  refine ⟨build_wellEscaped,
    fun ids r => resultWellEscaped_map ids (BaseTrafficReport.serializeBody r),
    fun r => resultWellEscaped_map HeartbeatMessage.MESSAGE_IDS
      (HeartbeatMessage.serializeBody r),
    fun r => resultWellEscaped_map HeightAboveTerrainMessage.MESSAGE_IDS
      (HeightAboveTerrainMessage.serialize_height_above_terrain r),
    fun r => resultWellEscaped_map ForeFlightAHRSMessage.MESSAGE_IDS
      (ForeFlightAHRSMessage.serializeBody r),
    fun r => ?_⟩
  cases htor : BasicUATReportMessage.serialize_time_of_reception r with
  | error e =>
    simp [BasicUATReportMessage.serialize, Bind.bind, Except.bind, htor,
      resultWellEscaped]
  | ok tor =>
    cases hup : BasicUATReportMessage.serialize_uplink_payload r with
    | error e =>
      simp [BasicUATReportMessage.serialize, Bind.bind, Except.bind, htor, hup,
        resultWellEscaped]
    | ok up =>
      simp only [BasicUATReportMessage.serialize, Bind.bind, Except.bind, htor,
        hup, pure, Except.pure]
      simpa [resultWellEscaped] using
        build_wellEscaped BasicUATReportMessage.MESSAGE_IDS (tor ++ up)


/-! ## Frame round-trip lemmas -/

theorem natToBits_bitsToNat (bs : List Bool) :
    natToBits bs.length (bitsToNat bs) = bs := by
  induction bs using List.reverseRecOn with
  | nil => rfl
  | append_singleton xs b ih =>
    rw [bitsToNat_append_single, List.length_append, List.length_singleton,
      natToBits]
    have hdiv : (2 * bitsToNat xs + (if b then 1 else 0)) / 2 = bitsToNat xs := by
      cases b
      all_goals simp
      all_goals omega
    have hmod : decide ((2 * bitsToNat xs + (if b then 1 else 0)) % 2 = 1) = b := by
      cases b
      all_goals simp
      all_goals omega
    rw [hdiv, hmod, ih]

theorem bitsToBytes_cons8 (a b c d e f g h : Bool) (rest : List Bool) :
    bitsToBytes (a :: b :: c :: d :: e :: f :: g :: h :: rest)
      = bitsToNat [a, b, c, d, e, f, g, h] :: bitsToBytes rest := by
  simp [bitsToBytes, bitsToBytesAux, bitsToNat]

theorem bytesToBits_bitsToBytes :
    ∀ (n : Nat) (bs : List Bool), bs.length = 8 * n →
      bytesToBits (bitsToBytes bs) = bs := by
  intro n
  induction n with
  | zero =>
    intro bs hbs
    have hnil : bs = [] := List.eq_nil_of_length_eq_zero (by omega)
    subst hnil
    rfl
  | succ n ih =>
    intro bs hbs
    match bs, hbs with
    | a :: b :: c :: d :: e :: f :: g :: h :: rest, hbs =>
      rw [bitsToBytes_cons8]
      have hlen : rest.length = 8 * n := by
        simp only [List.length_cons] at hbs
        omega
      have hb : natToBits 8 (bitsToNat [a, b, c, d, e, f, g, h])
          = [a, b, c, d, e, f, g, h] := by
        have := natToBits_bitsToNat [a, b, c, d, e, f, g, h]
        simpa using this
      calc bytesToBits (bitsToNat [a, b, c, d, e, f, g, h] :: bitsToBytes rest)
          = natToBits 8 (bitsToNat [a, b, c, d, e, f, g, h])
              ++ bytesToBits (bitsToBytes rest) := by
            simp [bytesToBits]
        _ = a :: b :: c :: d :: e :: f :: g :: h :: rest := by
            rw [hb, ih rest hlen]
            rfl

theorem xor32_xor32 (b : Nat) : b ^^^ 32 ^^^ 32 = b := by
  rw [Nat.xor_assoc, Nat.xor_self, Nat.xor_zero]

theorem unescape_escape (xs : List Nat) : unescape (escape xs) = some xs := by
  rw [unescape]
  induction xs with
  | nil => rfl
  | cons b t ih =>
    by_cases h : b = 0x7E ∨ b = 0x7D
    · rw [escape, if_pos h]
      show unescapeAux (0x7D :: (b ^^^ 0x20) :: escape t) false = some (b :: t)
      rw [unescapeAux, if_pos rfl, unescapeAux, ih]
      simp [xor32_xor32]
    · push_neg at h
      rw [escape, if_neg (by tauto)]
      rw [unescapeAux, if_neg h.2, ih]
      rfl

theorem compute_crc_length (data : List Nat) : (compute_crc data).length = 2 :=
  rfl

theorem deconstruct_build_single (id : Nat) (bits : List Bool)
    (hid : id ≠ 0x65) (n : Nat) (hlen : bits.length = 8 * n) :
    deconstruct (build [id] bits false) true = Except.ok ([id], bits) := by
  rw [build]
  simp only [if_neg (Bool.false_ne_true)]
  rw [deconstruct]
  rw [if_neg (by simp)]
  simp only [List.drop_succ_cons, List.drop_zero, List.dropLast_concat,
    if_true]
  rw [unescape_escape]
  have hsplit2 : ([id] ++ bitsToBytes bits
        ++ compute_crc ([id] ++ bitsToBytes bits)).length - 2
      = ([id] ++ bitsToBytes bits).length := by
    simp [compute_crc_length]
  simp only [hsplit2, List.take_left, List.drop_left]
  rw [if_neg (by simp)]
  simp only [List.singleton_append]
  simp [hid, bytesToBits_bitsToBytes n bits hlen]

theorem deconstruct_build_foreflight (sub : Nat) (bits : List Bool)
    (n : Nat) (hlen : bits.length = 8 * n) :
    deconstruct (build [0x65, sub] bits false) true
      = Except.ok ([0x65, sub], bits) := by
  rw [build]
  simp only [if_neg (Bool.false_ne_true)]
  rw [deconstruct]
  rw [if_neg (by simp)]
  simp only [List.drop_succ_cons, List.drop_zero, List.dropLast_concat,
    if_true]
  rw [unescape_escape]
  have hsplit2 : ([0x65, sub] ++ bitsToBytes bits
        ++ compute_crc ([0x65, sub] ++ bitsToBytes bits)).length - 2
      = ([0x65, sub] ++ bitsToBytes bits).length := by
    simp [compute_crc_length]
  simp only [hsplit2, List.take_left, List.drop_left]
  rw [if_neg (by simp)]
  simp only [List.cons_append, List.nil_append]
  simp [bytesToBits_bitsToBytes n bits hlen]

theorem intToBits_length (w : Nat) (v : Int) : (intToBits w v).length = w := by
  rw [intToBits, natToBits_length]

theorem pop_bits_append (A rest : List Bool) (n : Nat) (h : A.length = n) :
    pop_bits (A ++ rest) n = (A, rest) := by
  rw [pop_bits, List.take_left' h, List.drop_left' h]

theorem serialize_uint_ok (v : Int) (w : Nat) (hv : 0 ≤ v) :
    ∃ l, BaseMessage.serialize_uint v w = Except.ok l ∧ l.length = w := by
  rw [BaseMessage.serialize_uint, if_neg (not_lt.mpr hv), if_pos rfl]
  exact ⟨_, rfl, natToBits_length _ _⟩

theorem serialize_int_ok (v : Int) (w : Nat) :
    ∃ l, BaseMessage.serialize_int v w = Except.ok l ∧ l.length = w := by
  rw [BaseMessage.serialize_int, if_pos rfl]
  exact ⟨_, rfl, intToBits_length _ _⟩

theorem serialize_roll_ok (r : ForeFlightAHRSMessage) :
    ∃ l, ForeFlightAHRSMessage.serialize_roll r = Except.ok l
      ∧ l.length = 16 := by
  cases hr : r.roll with
  | none =>
    simp only [ForeFlightAHRSMessage.serialize_roll, hr]
    exact serialize_uint_ok _ _ (by decide)
  | some v =>
    simp only [ForeFlightAHRSMessage.serialize_roll, hr]
    split
    · exact serialize_uint_ok _ _ (by decide)
    · rw [BaseMessage.serialize_resolution_int]
      exact serialize_int_ok _ _

theorem serialize_pitch_ok (r : ForeFlightAHRSMessage) :
    ∃ l, ForeFlightAHRSMessage.serialize_pitch r = Except.ok l
      ∧ l.length = 16 := by
  cases hr : r.pitch with
  | none =>
    simp only [ForeFlightAHRSMessage.serialize_pitch, hr]
    exact serialize_uint_ok _ _ (by decide)
  | some v =>
    simp only [ForeFlightAHRSMessage.serialize_pitch, hr]
    split
    · exact serialize_uint_ok _ _ (by decide)
    · rw [BaseMessage.serialize_resolution_int]
      exact serialize_int_ok _ _

theorem serialize_heading_ok (r : ForeFlightAHRSMessage) :
    ∃ l, ForeFlightAHRSMessage.serialize_heading r = Except.ok l
      ∧ l.length = 16 := by
  cases hh : r.heading with
  | none =>
    cases hm : r.is_magnetic_heading with
    | none =>
      simp only [ForeFlightAHRSMessage.serialize_heading, hh, hm]
      exact serialize_uint_ok _ _ (by decide)
    | some m =>
      simp only [ForeFlightAHRSMessage.serialize_heading, hh, hm]
      exact serialize_uint_ok _ _ (by decide)
  | some v =>
    cases hm : r.is_magnetic_heading with
    | none =>
      simp only [ForeFlightAHRSMessage.serialize_heading, hh, hm]
      exact serialize_uint_ok _ _ (by decide)
    | some m =>
      simp only [ForeFlightAHRSMessage.serialize_heading, hh, hm]
      split
      · exact serialize_uint_ok _ _ (by decide)
      · obtain ⟨mb, hmb, hmblen⟩ := serialize_uint_ok
          (if m then 1 else 0) 1 (by split <;> decide)
        obtain ⟨hb, hhb, hhblen⟩ :=
          serialize_int_ok (ratTrunc (v / (1 / 10))) 15
        refine ⟨mb ++ hb, ?_, by simp [hmblen, hhblen]⟩
        have hres : BaseMessage.serialize_resolution_int v (1 / 10) 15
            = BaseMessage.serialize_int (ratTrunc (v / (1 / 10))) 15 := rfl
        simp [BaseMessage.serialize_bool, Bind.bind, Except.bind, hmb, hres,
          hhb, pure, Except.pure]

theorem serialize_indicated_airspeed_ok (r : ForeFlightAHRSMessage) :
    ∃ l, ForeFlightAHRSMessage.serialize_indicated_airspeed r = Except.ok l
      ∧ l.length = 16 := by
  cases hv : r.indicated_airspeed with
  | none =>
    simp only [ForeFlightAHRSMessage.serialize_indicated_airspeed, hv]
    exact serialize_uint_ok _ _ (by decide)
  | some v =>
    simp only [ForeFlightAHRSMessage.serialize_indicated_airspeed, hv]
    exact serialize_int_ok _ _

theorem serialize_true_airspeed_ok (r : ForeFlightAHRSMessage) :
    ∃ l, ForeFlightAHRSMessage.serialize_true_airspeed r = Except.ok l
      ∧ l.length = 16 := by
  cases hv : r.true_airspeed with
  | none =>
    simp only [ForeFlightAHRSMessage.serialize_true_airspeed, hv]
    exact serialize_uint_ok _ _ (by decide)
  | some v =>
    simp only [ForeFlightAHRSMessage.serialize_true_airspeed, hv]
    exact serialize_int_ok _ _

theorem ForeFlightAHRS_deserialize_build (A B C D E : List Bool)
    (hA : A.length = 16) (hB : B.length = 16) (hC : C.length = 16)
    (hD : D.length = 16) (hE : E.length = 16) :
    ForeFlightAHRSMessage.deserialize
        (build [0x65, 1] (A ++ (B ++ (C ++ (D ++ E)))) false) true
      = Except.ok
        { roll := (ForeFlightAHRSMessage.deserialize_roll A).map
            (fun i => (i : PyRat)),
          pitch := (ForeFlightAHRSMessage.deserialize_pitch B).map
            (fun i => (i : PyRat)),
          is_magnetic_heading :=
            (ForeFlightAHRSMessage.deserialize_heading C).1,
          heading := (ForeFlightAHRSMessage.deserialize_heading C).2.map
            (fun i => (i : PyRat)),
          indicated_airspeed :=
            ForeFlightAHRSMessage.deserialize_indicated_airspeed D,
          true_airspeed :=
            ForeFlightAHRSMessage.deserialize_true_airspeed E } := by
  have hlen : (A ++ (B ++ (C ++ (D ++ E)))).length = 8 * 10 := by
    simp [hA, hB, hC, hD, hE]
  have hdecon := deconstruct_build_foreflight 1 (A ++ (B ++ (C ++ (D ++ E))))
    10 hlen
  have hp1 := pop_bits_append A (B ++ (C ++ (D ++ E))) 16 hA
  have hp2 := pop_bits_append B (C ++ (D ++ E)) 16 hB
  have hp3 := pop_bits_append C (D ++ E) 16 hC
  have hp4 := pop_bits_append D E 16 hD
  have hp5 : pop_bits E 16 = (E, []) := by
    rw [pop_bits, ← hE, List.take_length, List.drop_length]
  simp [ForeFlightAHRSMessage.deserialize, hdecon, Bind.bind, Except.bind,
    hp1, hp2, hp3, hp4, hp5, ForeFlightAHRSMessage.MESSAGE_IDS, pure,
    Except.pure]

theorem BasicUAT_deserialize_build (A B : List Bool)
    (hA : A.length = 24) (hB : B.length = 144) :
    BasicUATReportMessage.deserialize (build [30] (A ++ B) false) true
      = Except.ok
        { time_of_reception :=
            BasicUATReportMessage.deserialize_time_of_reception A,
          uplink_payload := bitsToBytes B } := by
  have hlen : (A ++ B).length = 8 * 21 := by
    simp [hA, hB]
  have hdecon := deconstruct_build_single 30 (A ++ B) (by decide) 21 hlen
  have hp1 := pop_bits_append A B 24 hA
  have hp2 : pop_bits B 144 = (B, []) := by
    rw [pop_bits, ← hB, List.take_length, List.drop_length]
  simp [BasicUATReportMessage.deserialize, hdecon, Bind.bind, Except.bind,
    hp1, hp2, BasicUATReportMessage.MESSAGE_IDS,
    BasicUATReportMessage.UPLINK_PAYLOAD_BITS, pure, Except.pure]

theorem serialize_roll_sentinel (r : ForeFlightAHRSMessage) (v : PyRat)
    (hv : r.roll = some v) (hout : v < -180 ∨ 180 < v) :
    ForeFlightAHRSMessage.serialize_roll r
      = Except.ok (natToBits 16 0x7FFF) := by
  have hcond : ¬((-180 : PyRat) ≤ v ∧ v ≤ 180) := by
    rcases hout with h | h
    · exact fun hc => PyRat.not_le h hc.1
    · exact fun hc => PyRat.not_le h hc.2
  simp only [ForeFlightAHRSMessage.serialize_roll, hv]
  rw [if_pos hcond]
  decide

theorem serialize_pitch_sentinel (r : ForeFlightAHRSMessage) (v : PyRat)
    (hv : r.pitch = some v) (hout : v < -180 ∨ 180 < v) :
    ForeFlightAHRSMessage.serialize_pitch r
      = Except.ok (natToBits 16 0x7FFF) := by
  have hcond : ¬((-180 : PyRat) ≤ v ∧ v ≤ 180) := by
    rcases hout with h | h
    · exact fun hc => PyRat.not_le h hc.1
    · exact fun hc => PyRat.not_le h hc.2
  simp only [ForeFlightAHRSMessage.serialize_pitch, hv]
  rw [if_pos hcond]
  decide

theorem serialize_heading_sentinel (r : ForeFlightAHRSMessage) (v : PyRat)
    (hv : r.heading = some v) (hout : v < -360 ∨ 360 < v) :
    ForeFlightAHRSMessage.serialize_heading r
      = Except.ok (natToBits 16 0xFFFF) := by
  have hcond : ¬((-360 : PyRat) ≤ v ∧ v ≤ 360) := by
    rcases hout with h | h
    · exact fun hc => PyRat.not_le h hc.1
    · exact fun hc => PyRat.not_le h hc.2
  cases hm : r.is_magnetic_heading with
  | none =>
    simp only [ForeFlightAHRSMessage.serialize_heading, hv, hm]
    decide
  | some m =>
    simp only [ForeFlightAHRSMessage.serialize_heading, hv, hm]
    rw [if_pos hcond]
    decide

theorem serialize_tor_sentinel (u : BasicUATReportMessage) (t : Int)
    (ht : u.time_of_reception = some t) (hout : t < 0 ∨ 100000000 < t) :
    BasicUATReportMessage.serialize_time_of_reception u
      = Except.ok (byteswap (natToBits 24 0xFFFFFF)) := by
  have hcond : ¬((0 : Int) ≤ t ∧ t ≤ 100000000) := by omega
  simp only [BasicUATReportMessage.serialize_time_of_reception, ht]
  rw [if_pos hcond]
  decide

set_option maxHeartbeats 1600000 in
/-- C10: for EVERY ForeFlight AHRS record, each field independently — a roll
or pitch outside [-180, 180], or a heading outside [-360, 360] — serialises
as that field's documented absent sentinel (`0x7FFF` for roll/pitch,
`0xFFFF` for the 16-bit heading span) instead of failing or clamping, and
for EVERY UAT report a time of reception outside [0, 10^8] serialises as
`0xFFFFFF`; consequently, whenever serialisation succeeds, deserialising the
produced frame returns `None` for exactly the fields that were out of range,
even though the original record carried values. -/
theorem C10_out_of_range_sentinels :
    (∀ (r : ForeFlightAHRSMessage) (v : PyRat), r.roll = some v →
        (v < -180 ∨ 180 < v) →
        ForeFlightAHRSMessage.serialize_roll r
          = Except.ok (natToBits 16 0x7FFF))
    ∧ (∀ (r : ForeFlightAHRSMessage) (v : PyRat), r.pitch = some v →
        (v < -180 ∨ 180 < v) →
        ForeFlightAHRSMessage.serialize_pitch r
          = Except.ok (natToBits 16 0x7FFF))
    ∧ (∀ (r : ForeFlightAHRSMessage) (v : PyRat), r.heading = some v →
        (v < -360 ∨ 360 < v) →
        ForeFlightAHRSMessage.serialize_heading r
          = Except.ok (natToBits 16 0xFFFF))
    ∧ (∀ (u : BasicUATReportMessage) (t : Int), u.time_of_reception = some t →
        (t < 0 ∨ 100000000 < t) →
        BasicUATReportMessage.serialize_time_of_reception u
          = Except.ok (byteswap (natToBits 24 0xFFFFFF)))
    ∧ (∀ (r : ForeFlightAHRSMessage) (frame : List Nat),
        ForeFlightAHRSMessage.serialize r false = Except.ok frame →
        ∃ d, ForeFlightAHRSMessage.deserialize frame true = Except.ok d
          ∧ (∀ v : PyRat, r.roll = some v → (v < -180 ∨ 180 < v) →
              d.roll = none)
          ∧ (∀ v : PyRat, r.pitch = some v → (v < -180 ∨ 180 < v) →
              d.pitch = none)
          ∧ (∀ v : PyRat, r.heading = some v → (v < -360 ∨ 360 < v) →
              d.heading = none ∧ d.is_magnetic_heading = none))
    ∧ (∀ (u : BasicUATReportMessage) (frame : List Nat) (t : Int),
        BasicUATReportMessage.serialize u false = Except.ok frame →
        u.time_of_reception = some t → (t < 0 ∨ 100000000 < t) →
        ∃ d, BasicUATReportMessage.deserialize frame true = Except.ok d
          ∧ d.time_of_reception = none) := by
  refine ⟨serialize_roll_sentinel, serialize_pitch_sentinel,
    serialize_heading_sentinel, serialize_tor_sentinel,
    fun r frame hser => ?_, fun u frame t hser ht hout => ?_⟩
  · obtain ⟨Ab, hAb, hAlen⟩ := serialize_roll_ok r
    obtain ⟨Bb, hBb, hBlen⟩ := serialize_pitch_ok r
    obtain ⟨Cb, hCb, hClen⟩ := serialize_heading_ok r
    obtain ⟨Db, hDb, hDlen⟩ := serialize_indicated_airspeed_ok r
    obtain ⟨Eb, hEb, hElen⟩ := serialize_true_airspeed_ok r
    have hbody : ForeFlightAHRSMessage.serializeBody r
        = Except.ok (Ab ++ (Bb ++ (Cb ++ (Db ++ Eb)))) := by
      simp [ForeFlightAHRSMessage.serializeBody, hAb, hBb, hCb, hDb, hEb,
        Bind.bind, Except.bind, pure, Except.pure, List.append_assoc]
    have hser2 : ForeFlightAHRSMessage.serialize r false
        = Except.ok
            (build [0x65, 1] (Ab ++ (Bb ++ (Cb ++ (Db ++ Eb)))) false) := by
      simp [ForeFlightAHRSMessage.serialize, hbody,
        ForeFlightAHRSMessage.MESSAGE_IDS, Except.map]
    obtain rfl : frame
        = build [0x65, 1] (Ab ++ (Bb ++ (Cb ++ (Db ++ Eb)))) false :=
      (Except.ok.inj (hser2.symm.trans hser)).symm
    rw [ForeFlightAHRS_deserialize_build Ab Bb Cb Db Eb hAlen hBlen hClen
      hDlen hElen]
    refine ⟨_, rfl, ?_, ?_, ?_⟩
    · intro v hv hout
      have hs := serialize_roll_sentinel r v hv hout
      have hAeq : Ab = natToBits 16 0x7FFF := Except.ok.inj (hAb.symm.trans hs)
      subst hAeq
      show (ForeFlightAHRSMessage.deserialize_roll (natToBits 16 0x7FFF)).map
          (fun i => (i : PyRat)) = none
      decide
    · intro v hv hout
      have hs := serialize_pitch_sentinel r v hv hout
      have hBeq : Bb = natToBits 16 0x7FFF := Except.ok.inj (hBb.symm.trans hs)
      subst hBeq
      show (ForeFlightAHRSMessage.deserialize_pitch (natToBits 16 0x7FFF)).map
          (fun i => (i : PyRat)) = none
      decide
    · intro v hv hout
      have hs := serialize_heading_sentinel r v hv hout
      have hCeq : Cb = natToBits 16 0xFFFF := Except.ok.inj (hCb.symm.trans hs)
      subst hCeq
      constructor
      · show (ForeFlightAHRSMessage.deserialize_heading
            (natToBits 16 0xFFFF)).2.map (fun i => (i : PyRat)) = none
        decide
      · show (ForeFlightAHRSMessage.deserialize_heading
            (natToBits 16 0xFFFF)).1 = none
        decide
  · have htor := serialize_tor_sentinel u t ht hout
    cases hup : BasicUATReportMessage.serialize_uplink_payload u with
    | error e =>
      rw [BasicUATReportMessage.serialize] at hser
      simp [htor, hup, Bind.bind, Except.bind] at hser
    | ok up =>
      have huplen : up.length = 144 := by
        rw [BasicUATReportMessage.serialize_uplink_payload] at hup
        split at hup
        · exact absurd hup (by simp)
        · next hcond =>
          have hup2 : bytesToBits u.uplink_payload = up := Except.ok.inj hup
          rw [← hup2]
          simpa [BasicUATReportMessage.UPLINK_PAYLOAD_BITS] using hcond
      have htorlen : (byteswap (natToBits 24 0xFFFFFF)).length = 24 := by
        decide
      have hser2 : BasicUATReportMessage.serialize u false
          = Except.ok
              (build [30] (byteswap (natToBits 24 0xFFFFFF) ++ up) false) := by
        simp [BasicUATReportMessage.serialize, htor, hup,
          BasicUATReportMessage.MESSAGE_IDS, Bind.bind, Except.bind, pure,
          Except.pure]
      obtain rfl : frame
          = build [30] (byteswap (natToBits 24 0xFFFFFF) ++ up) false :=
        (Except.ok.inj (hser2.symm.trans hser)).symm
      rw [BasicUAT_deserialize_build _ _ htorlen huplen]
      refine ⟨_, rfl, ?_⟩
      show BasicUATReportMessage.deserialize_time_of_reception
          (byteswap (natToBits 24 0xFFFFFF)) = none
      decide

set_option maxHeartbeats 1600000 in
/-- Witness for C10: the theorem applied at concrete records — an AHRS
record with roll 200, pitch -200, heading 400 (each out of range) and a UAT
record with time of reception 2*10^8 over a zero 18-byte payload. -/
theorem C10_out_of_range_sentinels_witness :
    ForeFlightAHRSMessage.serialize_roll (c10AHRS 200 (-200) 400)
        = Except.ok (natToBits 16 0x7FFF)
    ∧ BasicUATReportMessage.serialize_time_of_reception (c10UAT 200000000)
        = Except.ok (byteswap (natToBits 24 0xFFFFFF))
    ∧ (∃ frame d,
        ForeFlightAHRSMessage.serialize (c10AHRS 200 (-200) 400) false
          = Except.ok frame
        ∧ ForeFlightAHRSMessage.deserialize frame true = Except.ok d
        ∧ d.roll = none ∧ d.pitch = none ∧ d.heading = none)
    ∧ (∃ frame d,
        BasicUATReportMessage.serialize (c10UAT 200000000) false
          = Except.ok frame
        ∧ BasicUATReportMessage.deserialize frame true = Except.ok d
        ∧ d.time_of_reception = none) := by
  have h := C10_out_of_range_sentinels
  refine ⟨h.1 _ 200 rfl (Or.inr (by decide)),
    h.2.2.2.1 _ 200000000 rfl (Or.inr (by decide)), ?_, ?_⟩
  · obtain ⟨frame, hframe⟩ : ∃ f,
        ForeFlightAHRSMessage.serialize (c10AHRS 200 (-200) 400) false
          = Except.ok f := ⟨_, rfl⟩
    obtain ⟨d, hd, hroll, hpitch, hhead⟩ := h.2.2.2.2.1 _ frame hframe
    exact ⟨frame, d, hframe, hd, hroll 200 rfl (Or.inr (by decide)),
      hpitch (-200) rfl (Or.inl (by decide)),
      (hhead 400 rfl (Or.inr (by decide))).1⟩
  · obtain ⟨frame, hframe⟩ : ∃ f,
        BasicUATReportMessage.serialize (c10UAT 200000000) false
          = Except.ok f := ⟨_, rfl⟩
    obtain ⟨d, hd, htor⟩ := h.2.2.2.2.2 _ frame 200000000 hframe rfl
      (Or.inr (by decide))
    exact ⟨frame, d, hframe, hd, htor⟩
